import Mathlib

/-!
Verification of the gbrs Game Boy emulator core.

A shallow embedding of the Rust sources of the gbrs emulator
(`src/cpu.rs`, `src/cpu/register_file.rs`, `src/cpu/opcode.rs`,
`src/mmu.rs`, `src/timer.rs`, `src/cartridge.rs`, `src/ppu.rs`,
`src/lib.rs`) together with proofs and refutations of the properties
stated in the project specification.

Machine integers (`u8`, `u16`, `u32`) are embedded as `Nat`, with
wrapping written explicitly (`% 256`, `% 65536`) exactly where the
source performs a wrapping operation.  Rust code that can panic is
embedded in `Except String`; the error value marks the panic.
Fixed-size arrays are embedded as total functions from `Nat`, except
where the source iterates over an array as a sequence (object
attribute memory during the scanline compositor), where a `List`
mirrors the iteration order.
-/

namespace Gbrs

/-! Section util.rs : bit access on bytes.

`U8Ext::bit(idx)` returns the bit at (little-endian) index `idx`;
`U8Ext::set(idx)` sets that bit.  On `Nat` these are `Nat.testBit`
and bitwise or with a shifted one. -/

/-- Embedding of `U8Ext::bit`: `((self >> idx) & 0b01) > 0`. -/
def u8bit (x idx : Nat) : Bool := Nat.testBit x idx

/-- Embedding of `U8Ext::set`: `self | (1 << idx)`. -/
def u8set (x idx : Nat) : Nat := x ||| (1 <<< idx)

/-- Embedding of `U8Ext::bits`: the eight bits of a byte listed from the
highest-order bit (index 0 of the list is bit 7). -/
def u8bits (x : Nat) : List Bool :=
  (List.range 8).map fun i => u8bit x (7 - i)

/-- Embedding of `U8Ext::from_bits`: rebuild a byte from its bits listed
from the highest-order bit down. -/
def u8fromBits (bits : List Bool) : Nat :=
  List.foldl (fun acc (e : Nat × Bool) =>
    acc ||| (if e.2 then 1 <<< (7 - e.1) else 0)) 0 bits.enum

/-! Section ppu.rs : color ids and tile lines. -/

/-- The four per-pixel color ids produced by the two bit-planes of a tile
(`enum ColorId`). -/
inductive ColorId where
  | id0
  | id1
  | id2
  | id3
deriving DecidableEq, Repr

/-- The four DMG colors (`enum Color`), with their `repr(u8)` values. -/
inductive Color where
  | white
  | lightGray
  | darkGray
  | black
deriving DecidableEq, Repr

/-- Numeric value of a color (`Color as u8`). -/
def Color.toNat : Color → Nat
  | .white => 0
  | .lightGray => 1
  | .darkGray => 2
  | .black => 3

/-- Embedding of `Color::from_be_bits` (first argument is the
higher-order bit). -/
def Color.fromBeBits : Bool → Bool → Color
  | false, false => .white
  | false, true => .lightGray
  | true, false => .darkGray
  | true, true => .black

/-- Embedding of `Color::to_be_bits`. -/
def Color.toBeBits : Color → Bool × Bool
  | .white => (false, false)
  | .lightGray => (false, true)
  | .darkGray => (true, false)
  | .black => (true, true)

/-- A tile line: two parallel bit-planes, each one byte.  In both bytes
bit 7 is the left-most pixel and bit 0 the right-most
(`struct TileLine`). -/
structure TileLine where
  lsbs : Nat
  msbs : Nat
deriving DecidableEq, Repr

/-- The color id encoded at bit position `bitIdx` of a tile line: the
`match` on `(msbs.bit(bit_idx), lsbs.bit(bit_idx))` inside
`TileLine::color_ids`. -/
def TileLine.colorIdAtBit (t : TileLine) (bitIdx : Nat) : ColorId :=
  match u8bit t.msbs bitIdx, u8bit t.lsbs bitIdx with
  | false, false => .id0
  | false, true => .id1
  | true, false => .id2
  | true, true => .id3

/-- Embedding of `TileLine::color_ids`: the 8 color ids of a line, index
0 being the left-most pixel.  The source stores `result[7 - bit_idx]`
from bit `bit_idx`, i.e. entry `idx` of the result comes from bit
`7 - idx`. -/
def TileLine.colorIds (t : TileLine) : List ColorId :=
  (List.range 8).map fun idx => t.colorIdAtBit (7 - idx)

/-- One step of the encoding loop of `TileLine::from_color_ids`: entry
`idx` with color id `cid` sets bit `7 - idx` of the accumulated
`(lsbs, msbs)` pair according to `cid`. -/
def encStep (acc : Nat × Nat) (e : Nat × ColorId) : Nat × Nat :=
  let bitIdx := 7 - e.1
  match e.2 with
  | .id0 => acc
  | .id1 => (u8set acc.1 bitIdx, acc.2)
  | .id2 => (acc.1, u8set acc.2 bitIdx)
  | .id3 => (u8set acc.1 bitIdx, u8set acc.2 bitIdx)

/-- Embedding of `TileLine::from_color_ids`: re-encode 8 color ids
(left-most first) into the two bit-planes. -/
def TileLine.fromColorIds (ids : List ColorId) : TileLine :=
  let p := List.foldl encStep (0, 0) ids.enum
  { lsbs := p.1, msbs := p.2 }

/-- The single bit of `x` at position `b`, kept in place (helper for
reasoning about `TileLine.fromColorIds`). -/
def bitAt (x b : Nat) : Nat := if Nat.testBit x b then 1 <<< b else 0

/-- Bitwise or of `bitAt x (7 - idx)` for `idx` ranging over
`[k, k + n)` (helper mirroring the encoding loop). -/
def orBits (x k : Nat) : Nat → Nat
  | 0 => 0
  | n + 1 => bitAt x (7 - k) ||| orBits x (k + 1) n

/-! Section ppu.rs : palettes, tiles, display lines. -/

/-- Embedding of `struct ColorPalette(Color, Color, Color, Color)`:
field `i` is the color assigned to color id `i`. -/
structure ColorPalette where
  c0 : Color
  c1 : Color
  c2 : Color
  c3 : Color
deriving DecidableEq, Repr

/-- Embedding of `ColorPalette::lookup`. -/
def ColorPalette.lookup (p : ColorPalette) : ColorId → Color
  | .id0 => p.c0
  | .id1 => p.c1
  | .id2 => p.c2
  | .id3 => p.c3

/-- Embedding of `impl From<u8> for ColorPalette`: bits 1..0 give color
id 0, bits 3..2 give color id 1, and so on; within each two-bit field
the first argument of `from_be_bits` is the higher-order bit. -/
def ColorPalette.fromU8 (b : Nat) : ColorPalette :=
  { c0 := Color.fromBeBits (u8bit b 1) (u8bit b 0)
    c1 := Color.fromBeBits (u8bit b 3) (u8bit b 2)
    c2 := Color.fromBeBits (u8bit b 5) (u8bit b 4)
    c3 := Color.fromBeBits (u8bit b 7) (u8bit b 6) }

/-- Embedding of `impl From<ColorPalette> for u8`. -/
def ColorPalette.toU8 (p : ColorPalette) : Nat :=
  p.c0.toNat ||| (p.c1.toNat <<< 2) ||| (p.c2.toNat <<< 4) ||| (p.c3.toNat <<< 6)

/-- Embedding of `struct Tile`: 8 tile lines, `lines 0` being the top
line.  Indices ≥ 8 are unused. -/
structure Tile where
  lines : Nat → TileLine

/-- Embedding of `struct TileBlock([Tile; 128])`.  Indices ≥ 128 are
unused. -/
structure TileBlock where
  tiles : Nat → Tile

/-- Embedding of `struct VRamTileData`: 3 blocks of 128 tiles. -/
structure VRamTileData where
  tileDataBlocks : Nat → TileBlock

/-- Embedding of `VRamTileData::get_tile_from_0x8000` (unsigned
addressing): index 0..127 reads block 0, index 128..255 reads block 1
at `idx % 128`. -/
def VRamTileData.getTileFrom0x8000 (v : VRamTileData) (idx : Nat) : Tile :=
  if idx < 128 then (v.tileDataBlocks 0).tiles idx
  else (v.tileDataBlocks 1).tiles (idx % 128)

/-- Embedding of `VRamTileData::get_tile_from_0x8800_signed` (signed
addressing): a byte whose `i8` reading is non-negative (byte < 128)
reads block 2, a negative one (byte ≥ 128, value `byte - 256`) reads
block 1 at `byte - 256 + 128 = byte - 128`. -/
def VRamTileData.getTileFrom0x8800Signed (v : VRamTileData) (idx : Nat) : Tile :=
  if idx < 128 then (v.tileDataBlocks 2).tiles idx
  else (v.tileDataBlocks 1).tiles (idx - 128)

/-- Update one tile line in place (the mutation performed by
`Ppu::write_vram_byte`). -/
def VRamTileData.modifyLine (v : VRamTileData) (blockIdx tileIdx lineIdx : Nat)
    (g : TileLine → TileLine) : VRamTileData :=
  let block := v.tileDataBlocks blockIdx
  let tile := block.tiles tileIdx
  { tileDataBlocks := Function.update v.tileDataBlocks blockIdx
      { tiles := Function.update block.tiles tileIdx
          { lines := Function.update tile.lines lineIdx (g (tile.lines lineIdx)) } } }

/-- Embedding of `struct TileByteIdx`. -/
structure TileByteIdx where
  blockIdx : Nat
  tileIdx : Nat
  byteIdx : Nat
  lineIdx : Nat
deriving DecidableEq, Repr

/-- Embedding of `TileByteIdx::from_addr`.  The caller guarantees
`addr & 0x1FFF < 0x1800` (the tile-data range); the source panics
otherwise. -/
def TileByteIdx.fromAddr (addr : Nat) : TileByteIdx :=
  { blockIdx := (addr &&& 0b1100000000000) >>> 11
    tileIdx := (addr >>> 4) % 128
    byteIdx := addr &&& 0x0F
    lineIdx := (addr &&& 0x0F) >>> 1 }

/-- Embedding of `struct DisplayLine([u8; 40])`: a packed line of 160
2-bit pixels; byte 0 holds the 4 left-most pixels, and the two
left-most bits of a byte hold the first of its pixels.  Indices ≥ 40
are unused. -/
structure DisplayLine where
  bytes : Nat → Nat

/-- Embedding of `DisplayLine::pixel_at` (the source asserts
`idx ≤ 159`). -/
def DisplayLine.pixelAt (dl : DisplayLine) (idx : Nat) : Color :=
  let byteIdx := idx >>> 2
  let byte := dl.bytes byteIdx
  let idxOfColorInByte := 3 - idx % 4
  let colorBits := (byte >>> (2 * idxOfColorInByte)) &&& 0b11
  Color.fromBeBits (u8bit colorBits 1) (u8bit colorBits 0)

/-- Rotate a byte left by `n` bit positions (`u8::rotate_left`, used
with `n ∈ {0, 2, 4, 6}` by `DisplayLine::set_pixel`). -/
def rotl8 (x n : Nat) : Nat := ((x <<< n) ||| (x >>> (8 - n))) &&& 255

/-- Embedding of `DisplayLine::set_pixel` (the source asserts
`idx ≤ 159`). -/
def DisplayLine.setPixel (dl : DisplayLine) (idx : Nat) (color : Color) : DisplayLine :=
  let byteIdx := idx >>> 2
  let byte := dl.bytes byteIdx
  let colorIdx := 3 - idx % 4
  let byte := byte &&& rotl8 0b11111100 (2 * colorIdx)
  let byte := byte ||| (color.toNat <<< (2 * colorIdx))
  { bytes := Function.update dl.bytes byteIdx byte }

/-- Embedding of `DisplayLine::colors`: the 160 pixels of a line as a
function of the column. -/
def DisplayLine.colors (dl : DisplayLine) : Nat → Color := fun idx => dl.pixelAt idx

/-- Embedding of `DisplayLine::black_line`. -/
def DisplayLine.blackLine : DisplayLine := { bytes := fun _ => 0xFF }

/-- Embedding of `DisplayLine::white_line`. -/
def DisplayLine.whiteLine : DisplayLine := { bytes := fun _ => 0x00 }

/-! Section ppu.rs : PPU state. -/

/-- Embedding of `enum Mode`, the four LCD controller modes. -/
inductive Mode where
  | scanlineOAM
  | scanlineVRAM
  | horizontalBlank
  | verticalBlank
deriving DecidableEq, Repr

/-- Embedding of `struct LcdStatus`. -/
structure LcdStatus where
  lycIntSelect : Bool
  mode2IntSelect : Bool
  mode1IntSelect : Bool
  mode0IntSelect : Bool
deriving DecidableEq, Repr

/-- Embedding of `struct Position`. -/
structure Position where
  x : Nat
  y : Nat
deriving DecidableEq, Repr

/-- Embedding of `struct TileMap`: a 32×32 grid of tile indices,
accessed as `tileIndices row col`. -/
structure TileMap where
  tileIndices : Nat → Nat → Nat

/-- Embedding of `enum TileMapArea`. -/
inductive TileMapArea where
  | x9800
  | x9C00
deriving DecidableEq, Repr

/-- Embedding of `TileMapArea::from_bit`. -/
def TileMapArea.fromBit (b : Bool) : TileMapArea :=
  if b then .x9C00 else .x9800

/-- Embedding of `TileMapArea::to_bit`. -/
def TileMapArea.toBit : TileMapArea → Bool
  | .x9800 => false
  | .x9C00 => true

/-- Embedding of `enum BgAndWindowTileDataArea`. -/
inductive BgAndWindowTileDataArea where
  | x8800
  | x8000
deriving DecidableEq, Repr

/-- Embedding of `BgAndWindowTileDataArea::to_bit`. -/
def BgAndWindowTileDataArea.toBit : BgAndWindowTileDataArea → Bool
  | .x8800 => false
  | .x8000 => true

/-- Embedding of `enum ObjSize`. -/
inductive ObjSize where
  | dim8x8
  | dim8x16
deriving DecidableEq, Repr

/-- Embedding of `ObjSize::from_bit`. -/
def ObjSize.fromBit (b : Bool) : ObjSize :=
  if b then .dim8x16 else .dim8x8

/-- Embedding of `ObjSize::to_bit`. -/
def ObjSize.toBit : ObjSize → Bool
  | .dim8x8 => false
  | .dim8x16 => true

/-- Embedding of `ObjSize::height`. -/
def ObjSize.height : ObjSize → Nat
  | .dim8x8 => 8
  | .dim8x16 => 16

/-- Embedding of `enum ObjColorPaletteIdx`. -/
inductive ObjColorPaletteIdx where
  | zero
  | one
deriving DecidableEq, Repr

/-- Embedding of `enum Priority` (the BG-over-object priority flag). -/
inductive Priority where
  | zero
  | one
deriving DecidableEq, Repr

/-- Embedding of `struct ObjectAttributes` (one OAM entry). -/
structure ObjectAttributes where
  yPos : Nat
  xPos : Nat
  tileIdx : Nat
  bgOverObjPriority : Priority
  yFlip : Bool
  xFlip : Bool
  palette : ObjColorPaletteIdx
deriving DecidableEq, Repr

/-- Embedding of `ObjectAttributes::as_bytes`: byte 3 packs priority,
y-flip, x-flip and the palette index into bits 7..4. -/
def ObjectAttributes.asBytes (o : ObjectAttributes) : List Nat :=
  let byte3 :=
    (if o.bgOverObjPriority = Priority.one then 128 else 0) |||
    (if o.yFlip then 64 else 0) |||
    (if o.xFlip then 32 else 0) |||
    (if o.palette = ObjColorPaletteIdx.one then 16 else 0)
  [o.yPos, o.xPos, o.tileIdx, byte3]

/-- The all-zero OAM entry used by `Ppu::new`. -/
def ObjectAttributes.zeroed : ObjectAttributes :=
  { yPos := 0, xPos := 0, tileIdx := 0, bgOverObjPriority := .zero,
    yFlip := false, xFlip := false, palette := .zero }

/-- Embedding of `enum InterruptKind` with `repr(u8)` bit positions
0 to 4 (Vblank, LcdStat, Timer, Serial, Joypad). -/
inductive InterruptKind where
  | vblank
  | lcdStat
  | timer
  | serial
  | joypad
deriving DecidableEq, Repr

/-- An `EnumSet<InterruptKind>`: one flag per interrupt source. -/
structure InterruptSet where
  vblank : Bool
  lcdStat : Bool
  timer : Bool
  serial : Bool
  joypad : Bool
deriving DecidableEq, Repr

/-- `EnumSet::empty`. -/
def InterruptSet.empty : InterruptSet :=
  { vblank := false, lcdStat := false, timer := false, serial := false,
    joypad := false }

/-- `EnumSet::contains`. -/
def InterruptSet.contains (s : InterruptSet) : InterruptKind → Bool
  | .vblank => s.vblank
  | .lcdStat => s.lcdStat
  | .timer => s.timer
  | .serial => s.serial
  | .joypad => s.joypad

/-- Insertion of one element (`s |= kind`). -/
def InterruptSet.insertKind (s : InterruptSet) : InterruptKind → InterruptSet
  | .vblank => { s with vblank := true }
  | .lcdStat => { s with lcdStat := true }
  | .timer => { s with timer := true }
  | .serial => { s with serial := true }
  | .joypad => { s with joypad := true }

/-- Removal of one element (`EnumSet::remove`). -/
def InterruptSet.removeKind (s : InterruptSet) : InterruptKind → InterruptSet
  | .vblank => { s with vblank := false }
  | .lcdStat => { s with lcdStat := false }
  | .timer => { s with timer := false }
  | .serial => { s with serial := false }
  | .joypad => { s with joypad := false }

/-- Set union (`s |= other`). -/
def InterruptSet.union (s t : InterruptSet) : InterruptSet :=
  { vblank := s.vblank || t.vblank, lcdStat := s.lcdStat || t.lcdStat,
    timer := s.timer || t.timer, serial := s.serial || t.serial,
    joypad := s.joypad || t.joypad }

/-- Set intersection (`s & other`). -/
def InterruptSet.inter (s t : InterruptSet) : InterruptSet :=
  { vblank := s.vblank && t.vblank, lcdStat := s.lcdStat && t.lcdStat,
    timer := s.timer && t.timer, serial := s.serial && t.serial,
    joypad := s.joypad && t.joypad }

/-- `EnumSet::is_empty`. -/
def InterruptSet.isEmpty (s : InterruptSet) : Bool :=
  !s.vblank && !s.lcdStat && !s.timer && !s.serial && !s.joypad

/-- `EnumSet::as_u8`: the `repr(u8)` bitmask. -/
def InterruptSet.asU8 (s : InterruptSet) : Nat :=
  (if s.vblank then 1 else 0) ||| (if s.lcdStat then 2 else 0) |||
  (if s.timer then 4 else 0) ||| (if s.serial then 8 else 0) |||
  (if s.joypad then 16 else 0)

/-- `EnumSet::from_u8_truncated`: take the low five bits of a byte. -/
def InterruptSet.fromU8Truncated (b : Nat) : InterruptSet :=
  { vblank := u8bit b 0, lcdStat := u8bit b 1, timer := u8bit b 2,
    serial := u8bit b 3, joypad := u8bit b 4 }

/-- Embedding of `struct Ppu`.  The two frame buffers are functions of
the line index (0..143): `lcdDisplay` is the working buffer written
one scanline at a time, `lastFullFrame` is the snapshot taken when the
PPU enters vertical blank. -/
structure Ppu where
  lastFullFrame : Nat → DisplayLine
  lcdDisplay : Nat → DisplayLine
  vramTileData : VRamTileData
  loTileMap : TileMap
  hiTileMap : TileMap
  line : Nat
  cyclesInMode : Nat
  mode : Mode
  lcdEnabled : Bool
  windowTileMapSelect : TileMapArea
  windowEnabled : Bool
  bgAndWindowTileDataSelect : BgAndWindowTileDataArea
  bgTileMapSelect : TileMapArea
  objColorPalettes : Nat → ColorPalette
  objSize : ObjSize
  objEnabled : Bool
  bgEnabled : Bool
  objAttributeMemory : List ObjectAttributes
  bgColorPalette : ColorPalette
  viewportOffset : Position
  windowTopLeft : Position
  lyc : Nat
  lcdStatus : LcdStatus

/-- Embedding of `Ppu::new`. -/
def Ppu.new : Ppu :=
  { vramTileData :=
      { tileDataBlocks := fun _ =>
          { tiles := fun _ => { lines := fun _ => { lsbs := 0, msbs := 0 } } } }
    loTileMap := { tileIndices := fun _ _ => 0 }
    hiTileMap := { tileIndices := fun _ _ => 0 }
    line := 0
    cyclesInMode := 0
    mode := .scanlineOAM
    lcdEnabled := false
    windowTileMapSelect := TileMapArea.fromBit false
    windowEnabled := false
    bgAndWindowTileDataSelect := .x8800
    bgTileMapSelect := TileMapArea.fromBit false
    objSize := ObjSize.fromBit false
    objEnabled := false
    bgEnabled := false
    bgColorPalette := ColorPalette.fromU8 0x00
    viewportOffset := { x := 0, y := 0 }
    lyc := 0
    lcdStatus := { lycIntSelect := false, mode2IntSelect := false,
                   mode1IntSelect := false, mode0IntSelect := false }
    objColorPalettes := fun _ => ColorPalette.fromU8 0x00
    windowTopLeft := { x := 0, y := 0 }
    objAttributeMemory := List.replicate 40 ObjectAttributes.zeroed
    lcdDisplay := fun _ => DisplayLine.blackLine
    lastFullFrame := fun _ => DisplayLine.blackLine }

/-- Embedding of `Ppu::read_vram_byte`; the source panics for an
address outside 0x8000..=0x9FFF. -/
def Ppu.readVramByte (p : Ppu) (addr : Nat) : Except String Nat :=
  if 0x8000 ≤ addr ∧ addr ≤ 0x97FF then
    let idx := TileByteIdx.fromAddr addr
    let tile := (p.vramTileData.tileDataBlocks idx.blockIdx).tiles idx.tileIdx
    let line := tile.lines idx.lineIdx
    .ok (if idx.byteIdx % 2 = 0 then line.lsbs else line.msbs)
  else if 0x9800 ≤ addr ∧ addr ≤ 0x9FFF then
    let tm := if addr ≤ 0x9BFF then p.loTileMap else p.hiTileMap
    .ok (tm.tileIndices ((addr / 32) % 32) (addr % 32))
  else
    .error "Invalid address into VRAM"

/-- Embedding of `Ppu::write_vram_byte`; the source panics for an
address outside 0x8000..=0x9FFF. -/
def Ppu.writeVramByte (p : Ppu) (addr byte : Nat) : Except String Ppu :=
  if 0x8000 ≤ addr ∧ addr ≤ 0x97FF then
    let idx := TileByteIdx.fromAddr addr
    .ok { p with vramTileData :=
      p.vramTileData.modifyLine idx.blockIdx idx.tileIdx idx.lineIdx fun line =>
        if idx.byteIdx % 2 = 0 then { line with lsbs := byte }
        else { line with msbs := byte } }
  else if 0x9800 ≤ addr ∧ addr ≤ 0x9FFF then
    let row := (addr / 32) % 32
    let col := addr % 32
    if addr ≤ 0x9BFF then
      .ok { p with loTileMap :=
        { tileIndices := Function.update p.loTileMap.tileIndices row
            (Function.update (p.loTileMap.tileIndices row) col byte) } }
    else
      .ok { p with hiTileMap :=
        { tileIndices := Function.update p.hiTileMap.tileIndices row
            (Function.update (p.hiTileMap.tileIndices row) col byte) } }
  else
    .error "Invalid address into VRAM"

/-! Section ppu.rs : the scanline compositor. -/

/-- Stable insertion of an OAM entry into a list sorted by `xPos`: the
entry goes after all entries whose `xPos` is less than or equal.
Together with `sortObjsByXPos` this models the stable
`sort_by_key(|obj| obj.x_pos)` of the source. -/
def insertByXPos (x : ObjectAttributes) : List ObjectAttributes → List ObjectAttributes
  | [] => [x]
  | o :: rest =>
      if o.xPos ≤ x.xPos then o :: insertByXPos x rest else x :: o :: rest

/-- Stable sort of OAM entries by ascending `xPos` (ties keep OAM
order), modelling the stable `sort_by_key` used by the compositor. -/
def sortObjsByXPos (l : List ObjectAttributes) : List ObjectAttributes :=
  List.foldl (fun acc x => insertByXPos x acc) [] l

/-- The test of `obj_lines(obj).contains(&(lcd_line as i16))` from the
object pass: the object occupies LCD lines
`[y_pos - 16, y_pos - 16 + height)` (signed arithmetic, rendered here
with the 16 offset moved to the other side). -/
def objOnLine (objSize : ObjSize) (lcdLine : Nat) (obj : ObjectAttributes) : Bool :=
  obj.yPos ≤ lcdLine + 16 && lcdLine + 16 < obj.yPos + objSize.height

/-- Drawing of a single object onto a display line (the body of the
`for obj in prioritized_objects_on_line.iter().rev()` loop of
`Ppu::draw_scan_line_internal`). -/
def drawObject (vramTiles : VRamTileData) (lcdLine : Nat) (objSize : ObjSize)
    (objPalettes : Nat → ColorPalette) (bgLineColorIds : Nat → ColorId)
    (result : DisplayLine) (obj : ObjectAttributes) : DisplayLine :=
  let objTilesRowIdx :=
    if obj.yFlip then objSize.height - (lcdLine + 16 - obj.yPos) - 1
    else lcdLine + 16 - obj.yPos
  let pixelRow :=
    if objTilesRowIdx < 8 then
      ((vramTiles.getTileFrom0x8000 obj.tileIdx).lines objTilesRowIdx).colorIds
    else
      let baseTileIdx := obj.tileIdx &&& 0b11111110
      ((vramTiles.getTileFrom0x8000 (baseTileIdx + 1)).lines (objTilesRowIdx - 8)).colorIds
  let pixelRow := if obj.xFlip then pixelRow.reverse else pixelRow
  List.foldl
    (fun (result : DisplayLine) (e : Nat × ColorId) =>
      -- lcd_col_idx = obj.x_pos - 8 + pixel_idx (signed); only columns in 0..160 are drawn
      if 8 ≤ obj.xPos + e.1 ∧ obj.xPos + e.1 - 8 < 160 then
        let lcdColIdx := obj.xPos + e.1 - 8
        let isTransparent := e.2 = ColorId.id0
        if ¬isTransparent ∧
            (obj.bgOverObjPriority = Priority.zero ∨ bgLineColorIds lcdColIdx = ColorId.id0) then
          let pal := objPalettes (match obj.palette with
            | ObjColorPaletteIdx.zero => 0
            | ObjColorPaletteIdx.one => 1)
          result.setPixel lcdColIdx (pal.lookup e.2)
        else result
      else result)
    result pixelRow.enum

/-- Embedding of `Ppu::draw_scan_line_internal`: produce the 160 pixels
of one scanline from the background, window and object layers. -/
def drawScanLineInternal
    (vramTiles : VRamTileData) (lcdLine : Nat)
    (bgAndWindowTileDataSelect : BgAndWindowTileDataArea)
    (bgEnabled : Bool) (bgAndWindowPalette : ColorPalette)
    (bgTileMap : TileMap) (bgViewportOffset : Position)
    (windowEnabled : Bool) (windowTileMap : TileMap) (windowTopLeftPos : Position)
    (objEnabled : Bool) (objSize : ObjSize)
    (objAttrMemory : List ObjectAttributes)
    (objPalettes : Nat → ColorPalette) : DisplayLine :=
  let result := if bgEnabled then DisplayLine.blackLine else DisplayLine.whiteLine
  let bgLineColorIds : Nat → ColorId := fun _ => ColorId.id0
  -- background pass
  let st :=
    if bgEnabled then
      let bgRow := (bgViewportOffset.y + lcdLine) % 256
      List.foldl
        (fun (st : DisplayLine × (Nat → ColorId)) (lcdCol : Nat) =>
          let bgCol := (bgViewportOffset.x + lcdCol) % 256
          let pixelColorId :=
            let tileIdx := bgTileMap.tileIndices (bgRow / 8) (bgCol / 8)
            let tile := match bgAndWindowTileDataSelect with
              | .x8800 => vramTiles.getTileFrom0x8800Signed tileIdx
              | .x8000 => vramTiles.getTileFrom0x8000 tileIdx
            (tile.lines (bgRow % 8)).colorIds.getD (bgCol % 8) ColorId.id0
          (st.1.setPixel lcdCol (bgAndWindowPalette.lookup pixelColorId),
           Function.update st.2 lcdCol pixelColorId))
        (result, bgLineColorIds) (List.range 160)
    else (result, bgLineColorIds)
  -- window pass
  let windowVisible := bgEnabled && windowEnabled
    && windowTopLeftPos.y ≤ lcdLine
    && windowTopLeftPos.x ≤ 166 && windowTopLeftPos.y ≤ 143
  let st :=
    if bgEnabled && windowVisible then
      let windowRow := lcdLine - windowTopLeftPos.y
      List.foldl
        (fun (st : DisplayLine × (Nat → ColorId)) (lcdCol : Nat) =>
          -- window_col = lcd_col + 7 - WX (signed); negative columns are skipped
          if lcdCol + 7 < windowTopLeftPos.x then st
          else
            let windowCol := lcdCol + 7 - windowTopLeftPos.x
            let pixelColorId :=
              let tileIdx := windowTileMap.tileIndices (windowRow / 8) (windowCol / 8)
              let tile := match bgAndWindowTileDataSelect with
                | .x8800 => vramTiles.getTileFrom0x8800Signed tileIdx
                | .x8000 => vramTiles.getTileFrom0x8000 tileIdx
              (tile.lines (windowRow % 8)).colorIds.getD (windowCol % 8) ColorId.id0
            (st.1.setPixel lcdCol (bgAndWindowPalette.lookup pixelColorId),
             Function.update st.2 lcdCol pixelColorId))
        st (List.range 160)
    else st
  -- object pass
  if objEnabled then
    let prioritizedObjectsOnLine :=
      sortObjsByXPos ((objAttrMemory.filter (objOnLine objSize lcdLine)).take 10)
    List.foldl (drawObject vramTiles lcdLine objSize objPalettes st.2)
      st.1 prioritizedObjectsOnLine.reverse
  else st.1

/-- Embedding of `Ppu::draw_scan_line`: wire the PPU state into the
compositor. -/
def Ppu.drawScanLine (p : Ppu) : DisplayLine :=
  drawScanLineInternal p.vramTileData p.line p.bgAndWindowTileDataSelect
    p.bgEnabled p.bgColorPalette
    (match p.bgTileMapSelect with
      | .x9800 => p.loTileMap
      | .x9C00 => p.hiTileMap)
    p.viewportOffset p.windowEnabled
    (match p.windowTileMapSelect with
      | .x9800 => p.loTileMap
      | .x9C00 => p.hiTileMap)
    p.windowTopLeft p.objEnabled p.objSize p.objAttributeMemory
    p.objColorPalettes

/-- Embedding of `Ppu::should_trigger_lyc_interrupt`. -/
def Ppu.shouldTriggerLycInterrupt (p : Ppu) : Bool :=
  p.lcdStatus.lycIntSelect && p.lyc == p.line

/-- Embedding of `Ppu::step`: advance the mode state machine by
`tCycles` T-cycles, returning the raised interrupts and the new state.
When the LCD is disabled nothing changes.  The two `assert!` statements
of the source (`line < 144` in horizontal blank, `line < 154` in
vertical blank) hold in every reachable state (proved below) and are
not modelled as failures. -/
def Ppu.step (p : Ppu) (tCycles : Nat) : InterruptSet × Ppu :=
  if !p.lcdEnabled then (InterruptSet.empty, p)
  else
    let p := { p with cyclesInMode := p.cyclesInMode + tCycles }
    match p.mode with
    | .scanlineOAM =>
        if p.cyclesInMode ≥ 80 then
          (InterruptSet.empty,
           { p with cyclesInMode := p.cyclesInMode - 80, mode := .scanlineVRAM })
        else (InterruptSet.empty, p)
    | .scanlineVRAM =>
        if p.cyclesInMode ≥ 172 then
          let ints := if p.lcdStatus.mode0IntSelect then
              InterruptSet.empty.insertKind .lcdStat
            else InterruptSet.empty
          let p := { p with cyclesInMode := p.cyclesInMode - 172,
                            mode := .horizontalBlank }
          let p := if p.line < 144 then
              { p with lcdDisplay :=
                  Function.update p.lcdDisplay p.line p.drawScanLine }
            else p
          (ints, p)
        else (InterruptSet.empty, p)
    | .horizontalBlank =>
        if p.cyclesInMode ≥ 204 then
          let p := { p with cyclesInMode := p.cyclesInMode - 204,
                            line := p.line + 1 }
          let ints := if p.shouldTriggerLycInterrupt then
              InterruptSet.empty.insertKind .lcdStat
            else InterruptSet.empty
          if p.line = 144 then
            let p := { p with mode := .verticalBlank,
                              lastFullFrame := p.lcdDisplay }
            let ints := ints.insertKind .vblank
            let ints := if p.lcdStatus.mode1IntSelect then
                ints.insertKind .lcdStat
              else ints
            (ints, p)
          else
            let p := { p with mode := .scanlineOAM }
            let ints := if p.lcdStatus.mode2IntSelect then
                ints.insertKind .lcdStat
              else ints
            (ints, p)
        else (InterruptSet.empty, p)
    | .verticalBlank =>
        if p.cyclesInMode ≥ 456 then
          let p := { p with cyclesInMode := p.cyclesInMode - 456,
                            line := p.line + 1 }
          let p := if p.line = 154 then
              { p with line := 0, mode := .scanlineOAM }
            else p
          let ints := if p.shouldTriggerLycInterrupt then
              InterruptSet.empty.insertKind .lcdStat
            else InterruptSet.empty
          (ints, p)
        else (InterruptSet.empty, p)

/-- Embedding of the LCD-control arm (`0xFF40`) of `Mmu::write_byte`:
decode the LCDC byte into the PPU control flags; when the LCD-enable
bit is clear, first reset `line`, the mode, and the cycle
accumulator. -/
def Ppu.writeLcdc (p : Ppu) (byte : Nat) : Ppu :=
  let lcdEnable := u8bit byte 7
  let windowTileMapBit := u8bit byte 6
  let windowEnable := u8bit byte 5
  let bgAndWindowTileDataBit := u8bit byte 4
  let bgTileMapAreaBit := u8bit byte 3
  let objSizeBit := u8bit byte 2
  let objEnable := u8bit byte 1
  let bgEnable := u8bit byte 0
  let p := if !lcdEnable then
      { p with line := 0, mode := .horizontalBlank, cyclesInMode := 0 }
    else p
  { p with lcdEnabled := lcdEnable
           bgTileMapSelect := TileMapArea.fromBit bgTileMapAreaBit
           windowTileMapSelect := TileMapArea.fromBit windowTileMapBit
           windowEnabled := windowEnable
           bgAndWindowTileDataSelect :=
             if bgAndWindowTileDataBit then .x8000 else .x8800
           objSize := if objSizeBit then .dim8x16 else .dim8x8
           objEnabled := objEnable
           bgEnabled := bgEnable }

/-- Embedding of `Emulator::resolve_display` (lib.rs): read the
`lcd_display` field of the PPU owned by the emulator through
`ppu_as_ref` and expand each packed line into colors. -/
def resolveDisplay (p : Ppu) : Nat → Nat → Color :=
  fun lineIdx => (p.lcdDisplay lineIdx).colors

/-! Section timer.rs : the timer / divider counter. -/

/-- Embedding of `enum TimerFrequency`. -/
inductive TimerFrequency where
  | f4KiHz
  | f16KiHz
  | f64KiHz
  | f256KiHz
deriving DecidableEq, Repr

/-- Embedding of `TimerFrequency::t_cycles_per_tick`. -/
def TimerFrequency.tCyclesPerTick : TimerFrequency → Nat
  | .f4KiHz => 1024
  | .f16KiHz => 256
  | .f64KiHz => 64
  | .f256KiHz => 16

/-- Embedding of `struct Timer` (also used for the divider). -/
structure Timer where
  frequency : TimerFrequency
  enabled : Bool
  /-- Timer modulo (TMA). -/
  tma : Nat
  value : Nat
  /-- `t_cycles_count`, documented in the source as "the number of
  t-cycles since the last tick of the timer". -/
  tCyclesCount : Nat
deriving DecidableEq, Repr

/-- Embedding of `Timer::new`. -/
def Timer.new (frequency : TimerFrequency) : Timer :=
  { frequency := frequency, enabled := false, tma := 0, value := 0,
    tCyclesCount := 0 }

/-- Embedding of `Timer::disabled` / `Timer::enabled` constructors used
by `Mmu::new` (a timer with the given enable flag and zeroed state). -/
def Timer.mk0 (frequency : TimerFrequency) (enabled : Bool) : Timer :=
  { frequency := frequency, enabled := enabled, tma := 0, value := 0,
    tCyclesCount := 0 }

/-- Embedding of `Timer::update`.  Returns the overflow flag and the
updated timer.  The source adds `t_cycles` to `t_cycles_count` (a `u16`
that is never reduced), compares with strict `>` against the threshold,
and wraps `value` with `wrapping_add(1)`; on wrap to zero it reloads
`value` from `tma` and reports overflow. -/
def Timer.update (tm : Timer) (tCycles : Nat) : Bool × Timer :=
  if !tm.enabled then (false, tm)
  else
    let cnt := (tm.tCyclesCount + tCycles) % 65536
    if cnt > tm.frequency.tCyclesPerTick then
      let v := (tm.value + 1) % 256
      if v = 0 then (true, { tm with tCyclesCount := cnt, value := tm.tma })
      else (false, { tm with tCyclesCount := cnt, value := v })
    else (false, { tm with tCyclesCount := cnt })

/-! Section cartridge.rs : cartridge variants. -/

/-- Embedding of `struct NoMbc`: a fixed 32 KiB ROM and 8 KiB of
external RAM, both as functions of the address / offset. -/
structure NoMbc where
  rom : Nat → Nat
  extRam : Nat → Nat

/-- Embedding of `NoMbc::read`; the source panics outside the ROM and
external-RAM windows. -/
def NoMbc.read (c : NoMbc) (addr : Nat) : Except String Nat :=
  if addr ≤ 0x7FFF then .ok (c.rom addr)
  else if 0xA000 ≤ addr ∧ addr ≤ 0xBFFF then .ok (c.extRam (addr - 0xA000))
  else .error "Invalid cartridge memory access"

/-- Embedding of `NoMbc::write`: a write into the ROM range only logs a
diagnostic (`eprintln!`) and leaves the cartridge unchanged; a write
into the external-RAM range stores the byte; anything else panics. -/
def NoMbc.write (c : NoMbc) (addr byte : Nat) : Except String NoMbc :=
  if addr ≤ 0x7FFF then .ok c
  else if 0xA000 ≤ addr ∧ addr ≤ 0xBFFF then
    .ok { c with extRam := Function.update c.extRam (addr - 0xA000) byte }
  else .error "Invalid cartridge memory access"

/-- Embedding of `struct Mbc1`.  ROM and RAM banks are lists of
functions from the in-bank offset. -/
structure Mbc1 where
  romBanks : List (Nat → Nat)
  romBankIdx : Nat
  ramBanks : List (Nat → Nat)
  ramBankIdx : Nat
  ramEnable : Bool

/-- Embedding of `Mbc1::read`; an out-of-range bank index panics in the
source (vector indexing). -/
def Mbc1.read (c : Mbc1) (addr : Nat) : Except String Nat :=
  if addr ≤ 0x3FFF then
    match c.romBanks.get? 0 with
    | some bank => .ok (bank addr)
    | none => .error "rom bank out of range"
  else if addr ≤ 0x7FFF then
    match c.romBanks.get? c.romBankIdx with
    | some bank => .ok (bank (addr - 0x4000))
    | none => .error "rom bank out of range"
  else if 0xA000 ≤ addr ∧ addr ≤ 0xBFFF then
    if c.ramEnable then
      match c.ramBanks.get? c.ramBankIdx with
      | some bank => .ok (bank (addr - 0xA000))
      | none => .error "ram bank out of range"
    else .ok 0xFF
  else .error "invalid cartridge read"

/-- Embedding of `Mbc1::write`.  The bank-mode select range
(0x6000..=0x7FFF) is unimplemented and panics in the source. -/
def Mbc1.write (c : Mbc1) (addr byte : Nat) : Except String Mbc1 :=
  if addr ≤ 0x1FFF then
    .ok { c with ramEnable := byte &&& 0xF = 0xA }
  else if addr ≤ 0x3FFF then
    let idx := byte &&& 0b00011111
    .ok { c with romBankIdx := if idx = 0 then 1 else idx }
  else if addr ≤ 0x5FFF then
    .ok { c with ramBankIdx := byte &&& 0b0011 }
  else if addr ≤ 0x7FFF then
    .error "Have not implemented bank mode select for MBC1"
  else if 0xA000 ≤ addr ∧ addr ≤ 0xBFFF then
    if c.ramEnable then
      match c.ramBanks.get? c.ramBankIdx with
      | some bank =>
          .ok { c with ramBanks :=
            c.ramBanks.set c.ramBankIdx (Function.update bank (addr - 0xA000) byte) }
      | none => .error "ram bank out of range"
    else .ok c
  else .error "Illegal write to cartridge"

/-- Embedding of `enum RamBankOrRtcSelect`. -/
inductive RamBankOrRtcSelect where
  | ram (idx : Nat)
  | seconds
  | minutes
  | hours
  | dayCounterLoBits
  | dayCounterHiBits
deriving DecidableEq, Repr

/-- Embedding of `enum LatchState`. -/
inductive LatchState where
  | latched
  | staged
deriving DecidableEq, Repr

/-- Embedding of `struct RealTimeClockRegisters`.  The source also
stores `last_update_time : SystemTime`; wall-clock time is not part of
the embedding, so `update` below instead receives the elapsed whole
seconds as a parameter. -/
structure RealTimeClockRegisters where
  seconds : Nat
  minutes : Nat
  hours : Nat
  daysLow : Nat
  daysHiBit : Bool
  dayCounterCarry : Bool
deriving DecidableEq, Repr

/-- Embedding of `RealTimeClockRegisters::update`.  `elapsed` stands
for `now.duration_since(self.last_update_time).as_secs()`; when it is
zero the source returns without touching the registers, otherwise the
delta is propagated through seconds, minutes, hours and the 9-bit day
counter, with a sticky carry for day overflow past 511. -/
def RealTimeClockRegisters.update (r : RealTimeClockRegisters) (elapsed : Nat) :
    RealTimeClockRegisters :=
  if elapsed = 0 then r
  else
    let totalSeconds := r.seconds + elapsed
    let totalMinutes := r.minutes + totalSeconds / 60
    let totalHours := r.hours + totalMinutes / 60
    let totalDays := (if r.daysHiBit then 256 else 0) + r.daysLow + totalHours / 24
    { seconds := totalSeconds % 60
      minutes := totalMinutes % 60
      hours := totalHours % 24
      daysLow := totalDays % 256
      daysHiBit := totalDays % 512 ≥ 256
      dayCounterCarry := if totalDays > 511 then true else r.dayCounterCarry }

/-- Embedding of `struct Mbc3`. -/
structure Mbc3 where
  romBanks : List (Nat → Nat)
  romBankIdx : Nat
  ramBanks : List (Nat → Nat)
  enableRamAndRtc : Bool
  ramBankOrRtcSelect : RamBankOrRtcSelect
  clockRegisters : RealTimeClockRegisters
  latchState : LatchState

/-- Embedding of `Mbc3::read`. -/
def Mbc3.read (c : Mbc3) (addr : Nat) : Except String Nat :=
  if addr ≤ 0x3FFF then
    match c.romBanks.get? 0 with
    | some bank => .ok (bank addr)
    | none => .error "rom bank out of range"
  else if addr ≤ 0x7FFF then
    match c.romBanks.get? c.romBankIdx with
    | some bank => .ok (bank (addr - 0x4000))
    | none => .error "rom bank out of range"
  else if 0xA000 ≤ addr ∧ addr ≤ 0xBFFF then
    if c.enableRamAndRtc then
      match c.ramBankOrRtcSelect with
      | .ram idx =>
          match c.ramBanks.get? idx with
          | some bank => .ok (bank (addr - 0xA000))
          | none => .error "ram bank out of range"
      | .seconds => .ok c.clockRegisters.seconds
      | .minutes => .ok c.clockRegisters.minutes
      | .hours => .ok c.clockRegisters.hours
      | .dayCounterLoBits => .ok c.clockRegisters.daysLow
      | .dayCounterHiBits =>
          .ok ((if c.clockRegisters.daysHiBit then 0x01 else 0) |||
               (if c.clockRegisters.dayCounterCarry then 0x80 else 0))
    else .ok 0xFF
  else .error "BUG: Invalid read from mbc3 cartridge"

/-- Embedding of `Mbc3::write`.  `elapsed` is the wall-clock delta (in
whole seconds) passed on to `RealTimeClockRegisters::update` when the
two-step latch fires. -/
def Mbc3.write (c : Mbc3) (elapsed addr byte : Nat) : Except String Mbc3 :=
  if addr ≤ 0x1FFF then
    .ok (if byte &&& 0xF = 0xA then { c with enableRamAndRtc := true }
         else if byte &&& 0xF = 0x0 then { c with enableRamAndRtc := false }
         else c)
  else if addr ≤ 0x3FFF then
    let romBankNumber := byte &&& 0x07F
    .ok { c with romBankIdx := if romBankNumber = 0 then 1 else romBankNumber }
  else if addr ≤ 0x5FFF then
    .ok (if byte ≤ 0x3 then { c with ramBankOrRtcSelect := .ram byte }
         else if byte = 0x8 then { c with ramBankOrRtcSelect := .seconds }
         else if byte = 0x9 then { c with ramBankOrRtcSelect := .minutes }
         else if byte = 0xA then { c with ramBankOrRtcSelect := .hours }
         else if byte = 0xB then { c with ramBankOrRtcSelect := .dayCounterLoBits }
         else if byte = 0xC then { c with ramBankOrRtcSelect := .dayCounterHiBits }
         else c)
  else if addr ≤ 0x7FFF then
    .ok (if byte = 0x0 then { c with latchState := .staged }
         else if byte = 0x1 ∧ c.latchState = .staged then
           { c with clockRegisters := c.clockRegisters.update elapsed,
                    latchState := .latched }
         else c)
  else if 0xA000 ≤ addr ∧ addr ≤ 0xBFFF then
    if c.enableRamAndRtc then
      match c.ramBankOrRtcSelect with
      | .ram idx =>
          match c.ramBanks.get? idx with
          | some bank =>
              .ok { c with ramBanks :=
                c.ramBanks.set idx (Function.update bank (addr - 0xA000) byte) }
          | none => .error "ram bank out of range"
      | .seconds =>
          .ok { c with clockRegisters := { c.clockRegisters with seconds := byte % 60 } }
      | .minutes =>
          .ok { c with clockRegisters := { c.clockRegisters with minutes := byte % 60 } }
      | .hours =>
          .ok { c with clockRegisters := { c.clockRegisters with hours := byte % 24 } }
      | .dayCounterLoBits =>
          .ok { c with clockRegisters := { c.clockRegisters with daysLow := byte } }
      | .dayCounterHiBits =>
          .ok { c with clockRegisters :=
            { c.clockRegisters with daysHiBit := byte &&& 0x01 ≠ 0,
                                    dayCounterCarry := byte &&& 0x80 ≠ 0 } }
    else .ok c
  else .error "Illegal write to cartridge"

/-- The tagged cartridge variant behind `Box<dyn Cartridge>`. -/
inductive Cart where
  | noMbc (c : NoMbc)
  | mbc1 (c : Mbc1)
  | mbc3 (c : Mbc3)

/-- Dynamic dispatch of `Cartridge::read`. -/
def Cart.read : Cart → Nat → Except String Nat
  | .noMbc c, addr => c.read addr
  | .mbc1 c, addr => c.read addr
  | .mbc3 c, addr => c.read addr

/-- Dynamic dispatch of `Cartridge::write` (the `elapsed` wall-clock
parameter only matters for the MBC3 clock latch). -/
def Cart.write : Cart → Nat → Nat → Nat → Except String Cart
  | .noMbc c, _, addr, byte => (c.write addr byte).map .noMbc
  | .mbc1 c, _, addr, byte => (c.write addr byte).map .mbc1
  | .mbc3 c, elapsed, addr, byte => (c.write elapsed addr byte).map .mbc3

/-! Section mmu.rs : joypad selection and buttons. -/

/-- Embedding of `enum Button` (joypad.rs). -/
inductive Button where
  | a
  | b
  | start
  | selectBtn
  | up
  | down
  | left
  | right
deriving DecidableEq, Repr

/-- Embedding of `enum JoypadSelect`. -/
inductive JoypadSelect where
  | all
  | buttons
  | dPad
  | none
deriving DecidableEq, Repr

/-- Embedding of `JoypadSelect::from_be_bits` (arguments: bit 5, then
bit 4 of the written byte). -/
def JoypadSelect.fromBeBits : Bool → Bool → JoypadSelect
  | false, false => .all
  | false, true => .buttons
  | true, false => .dPad
  | true, true => .none

/-- Embedding of `JoypadSelect::to_be_bits`. -/
def JoypadSelect.toBeBits : JoypadSelect → Bool × Bool
  | .buttons => (false, true)
  | .dPad => (true, false)
  | .none => (true, true)
  | .all => (false, false)

/-- The byte built by `u8::from_bits([b7, …, b0])` (first element is
the highest-order bit). -/
def mkByte (b7 b6 b5 b4 b3 b2 b1 b0 : Bool) : Nat :=
  (if b7 then 128 else 0) ||| (if b6 then 64 else 0) |||
  (if b5 then 32 else 0) ||| (if b4 then 16 else 0) |||
  (if b3 then 8 else 0) ||| (if b2 then 4 else 0) |||
  (if b1 then 2 else 0) ||| (if b0 then 1 else 0)

/-! Section mmu.rs : the memory-management unit. -/

/-- Embedding of `struct Mmu`. -/
structure Mmu where
  cartridge : Cart
  workRam : Nat → Nat
  highRam : Nat → Nat
  bootRom : Nat → Nat
  inBootRom : Bool
  ppu : Ppu
  interruptsEnabled : InterruptSet
  interruptsRequested : InterruptSet
  timer : Timer
  divider : Timer
  joypadSelect : JoypadSelect
  pressedButtons : Button → Bool

/-- Embedding of the `0xFF00` read arm of `Mmu::read_byte`: the select
bits plus the active-low (inverted) state of the selected button
group. -/
def Mmu.readJoypad (m : Mmu) : Nat :=
  let sel := m.joypadSelect.toBeBits
  let btnState := fun (button : Button) => !(m.pressedButtons button)
  match m.joypadSelect with
  | .buttons =>
      mkByte true true sel.1 sel.2 (btnState .start) (btnState .selectBtn)
        (btnState .b) (btnState .a)
  | .dPad =>
      mkByte true true sel.1 sel.2 (btnState .down) (btnState .up)
        (btnState .left) (btnState .right)
  | .none =>
      mkByte true true true true true true true true
  | .all =>
      mkByte true true sel.1 sel.2
        (btnState .start || btnState .down) (btnState .selectBtn || btnState .up)
        (btnState .b || btnState .left) (btnState .a || btnState .right)

/-- Embedding of `Mmu::read_byte`.  Panics of the source (prohibited
memory, the DMA register, the boot-ROM disable register, unhandled
registers) are the `error` cases. -/
def Mmu.readByte (m : Mmu) (addr : Nat) : Except String Nat :=
  if addr ≤ 0x7FFF then
    if m.inBootRom ∧ addr < 0x100 then .ok (m.bootRom addr)
    else m.cartridge.read addr
  else if addr ≤ 0x9FFF then m.ppu.readVramByte addr
  else if addr ≤ 0xBFFF then m.cartridge.read addr
  else if addr ≤ 0xDFFF then .ok (m.workRam (addr &&& 0x1FFF))
  else if addr ≤ 0xFDFF then .ok (m.workRam (addr &&& 0x1FFF))
  else if addr ≤ 0xFE9F then
    let objectEntryIdx := (addr - 0xFE00) >>> 2
    let objectAttributes :=
      m.ppu.objAttributeMemory.getD objectEntryIdx ObjectAttributes.zeroed
    .ok (objectAttributes.asBytes.getD (addr % 4) 0)
  else if addr ≤ 0xFEFF then .error "Program accessed invalid memory"
  else if addr = 0xFF00 then .ok m.readJoypad
  else if addr = 0xFF01 ∨ addr = 0xFF02 then .ok 0
  else if addr = 0xFF04 then .ok m.divider.value
  else if addr = 0xFF05 then .ok m.timer.value
  else if addr = 0xFF06 then .ok m.timer.tma
  else if addr = 0xFF07 then
    let fb : Bool × Bool := match m.timer.frequency with
      | .f4KiHz => (false, false)
      | .f16KiHz => (true, true)
      | .f64KiHz => (true, false)
      | .f256KiHz => (false, true)
    .ok (mkByte true true true true true m.timer.enabled fb.1 fb.2)
  else if addr = 0xFF0F then .ok m.interruptsRequested.asU8
  else if 0xFF10 ≤ addr ∧ addr ≤ 0xFF3F then .ok 0x00
  else if addr = 0xFF40 then
    .ok (mkByte m.ppu.lcdEnabled m.ppu.windowTileMapSelect.toBit
      m.ppu.windowEnabled m.ppu.bgAndWindowTileDataSelect.toBit
      m.ppu.bgTileMapSelect.toBit m.ppu.objSize.toBit
      m.ppu.objEnabled m.ppu.bgEnabled)
  else if addr = 0xFF41 then
    let mb : Bool × Bool := match m.ppu.mode with
      | .horizontalBlank => (false, false)
      | .verticalBlank => (false, true)
      | .scanlineOAM => (true, false)
      | .scanlineVRAM => (true, true)
    let stat := m.ppu.lcdStatus
    .ok (mkByte true stat.lycIntSelect stat.mode2IntSelect stat.mode1IntSelect
      stat.mode0IntSelect (m.ppu.line == m.ppu.lyc) mb.1 mb.2)
  else if addr = 0xFF42 then .ok m.ppu.viewportOffset.y
  else if addr = 0xFF43 then .ok m.ppu.viewportOffset.x
  else if addr = 0xFF44 then .ok m.ppu.line
  else if addr = 0xFF45 then .ok m.ppu.lyc
  else if addr = 0xFF46 then .error "Attempted to read from DMA transfer register"
  else if addr = 0xFF47 then .ok m.ppu.bgColorPalette.toU8
  else if addr = 0xFF48 then .ok (m.ppu.objColorPalettes 0).toU8
  else if addr = 0xFF49 then .ok (m.ppu.objColorPalettes 1).toU8
  else if addr = 0xFF4A then .ok m.ppu.windowTopLeft.y
  else if addr = 0xFF4B then .ok m.ppu.windowTopLeft.x
  else if addr = 0xFF4D then .ok 0xFF
  else if addr = 0xFF4F then .ok 0xFF
  else if addr = 0xFF50 then .error "Attempted to read from boot ROM disable register"
  else if 0xFF51 ≤ addr ∧ addr ≤ 0xFF55 then .ok 0xFF
  else if 0xFF68 ≤ addr ∧ addr ≤ 0xFF6B then .ok 0xFF
  else if addr = 0xFF70 then .ok 0xFF
  else if 0xFF80 ≤ addr ∧ addr ≤ 0xFFFE then .ok (m.highRam (addr - 0xFF80))
  else if addr = 0xFFFF then .ok m.interruptsEnabled.asU8
  else .error "Unhandled register read"

/-- The object-attribute-memory write arm (0xFE00..=0xFE9F) of
`Mmu::write_byte`, shared with the OAM DMA loop. -/
def Mmu.oamWrite (m : Mmu) (addr byte : Nat) : Mmu :=
  let objectEntryIdx := (addr - 0xFE00) >>> 2
  let obj := m.ppu.objAttributeMemory.getD objectEntryIdx ObjectAttributes.zeroed
  let obj :=
    if addr % 4 = 0 then { obj with yPos := byte }
    else if addr % 4 = 1 then { obj with xPos := byte }
    else if addr % 4 = 2 then { obj with tileIdx := byte }
    else
      { obj with
        bgOverObjPriority := if u8bit byte 7 then .one else .zero
        yFlip := u8bit byte 6
        xFlip := u8bit byte 5
        palette := if u8bit byte 4 then .one else .zero }
  { m with ppu := { m.ppu with objAttributeMemory :=
      m.ppu.objAttributeMemory.set objectEntryIdx obj } }

/-- Embedding of `Mmu::write_byte` for every arm except the OAM DMA
register (0xFF46), which is `Mmu.writeByte` below.  `elapsed` is the
wall-clock parameter threaded to the MBC3 clock latch.  Arms whose
source only logs (`eprintln!`) or ignores the write return the state
unchanged. -/
def Mmu.writeByteNoDma (m : Mmu) (elapsed addr byte : Nat) : Except String Mmu :=
  if addr ≤ 0x7FFF then
    (m.cartridge.write elapsed addr byte).map fun c => { m with cartridge := c }
  else if addr ≤ 0x9FFF then
    (m.ppu.writeVramByte addr byte).map fun p => { m with ppu := p }
  else if addr ≤ 0xBFFF then
    (m.cartridge.write elapsed addr byte).map fun c => { m with cartridge := c }
  else if addr ≤ 0xDFFF then
    .ok { m with workRam := Function.update m.workRam (addr &&& 0x1FFF) byte }
  else if addr ≤ 0xFDFF then
    .ok { m with workRam := Function.update m.workRam (addr &&& 0x1FFF) byte }
  else if addr ≤ 0xFE9F then .ok (m.oamWrite addr byte)
  else if addr ≤ 0xFEFF then .ok m
  else if addr = 0xFF00 then
    .ok { m with joypadSelect := JoypadSelect.fromBeBits (u8bit byte 5) (u8bit byte 4) }
  else if addr = 0xFF01 ∨ addr = 0xFF02 then .ok m
  else if addr = 0xFF04 then .ok { m with divider := { m.divider with value := 0 } }
  else if addr = 0xFF05 then .ok { m with timer := { m.timer with value := byte } }
  else if addr = 0xFF06 then .ok { m with timer := { m.timer with tma := byte } }
  else if addr = 0xFF07 then
    let frequency : TimerFrequency :=
      match u8bit byte 1, u8bit byte 0 with
      | false, false => .f4KiHz
      | false, true => .f256KiHz
      | true, false => .f64KiHz
      | true, true => .f16KiHz
    .ok { m with timer :=
      { m.timer with enabled := u8bit byte 2, frequency := frequency } }
  else if addr = 0xFF0F then
    .ok { m with interruptsRequested := InterruptSet.fromU8Truncated byte }
  else if 0xFF10 ≤ addr ∧ addr ≤ 0xFF26 then .ok m
  else if 0xFF30 ≤ addr ∧ addr ≤ 0xFF3F then .ok m
  else if addr = 0xFF40 then .ok { m with ppu := m.ppu.writeLcdc byte }
  else if addr = 0xFF41 then
    .ok { m with ppu := { m.ppu with lcdStatus :=
      { lycIntSelect := u8bit byte 6, mode2IntSelect := u8bit byte 5,
        mode1IntSelect := u8bit byte 4, mode0IntSelect := u8bit byte 3 } } }
  else if addr = 0xFF42 then
    .ok { m with ppu := { m.ppu with viewportOffset :=
      { m.ppu.viewportOffset with y := byte } } }
  else if addr = 0xFF43 then
    .ok { m with ppu := { m.ppu with viewportOffset :=
      { m.ppu.viewportOffset with x := byte } } }
  else if addr = 0xFF44 then .ok m
  else if addr = 0xFF45 then .ok { m with ppu := { m.ppu with lyc := byte } }
  else if addr = 0xFF47 then
    .ok { m with ppu := { m.ppu with bgColorPalette := ColorPalette.fromU8 byte } }
  else if addr = 0xFF48 then
    .ok { m with ppu := { m.ppu with objColorPalettes :=
      (Function.update m.ppu.objColorPalettes 0 (ColorPalette.fromU8 byte)) } }
  else if addr = 0xFF49 then
    .ok { m with ppu := { m.ppu with objColorPalettes :=
      (Function.update m.ppu.objColorPalettes 1 (ColorPalette.fromU8 byte)) } }
  else if addr = 0xFF4A then
    .ok { m with ppu := { m.ppu with windowTopLeft :=
      { m.ppu.windowTopLeft with y := byte } } }
  else if addr = 0xFF4B then
    .ok { m with ppu := { m.ppu with windowTopLeft :=
      { m.ppu.windowTopLeft with x := byte } } }
  else if addr = 0xFF4D then .ok m
  else if addr = 0xFF4F then .ok m
  else if addr = 0xFF50 then
    .ok (if byte ≠ 0 then { m with inBootRom := false } else m)
  else if 0xFF51 ≤ addr ∧ addr ≤ 0xFF55 then .ok m
  else if 0xFF68 ≤ addr ∧ addr ≤ 0xFF6C then .ok m
  else if addr = 0xFF70 then .ok m
  else if 0xFF80 ≤ addr ∧ addr ≤ 0xFFFE then
    .ok { m with highRam := Function.update m.highRam (addr - 0xFF80) byte }
  else if addr = 0xFFFF then
    .ok { m with interruptsEnabled := InterruptSet.fromU8Truncated byte }
  else .ok m

/-- Embedding of `Mmu::write_byte`.  A write to the OAM DMA register
(0xFF46) copies 160 bytes from `byte * 0x100` into object attribute
memory (0xFE00..); those inner writes always land in the OAM arm. -/
def Mmu.writeByte (m : Mmu) (elapsed addr byte : Nat) : Except String Mmu :=
  if addr = 0xFF46 then
    let sourceAddr := byte <<< 8
    (List.range 0xA0).foldlM
      (fun (m : Mmu) offset =>
        (m.readByte (sourceAddr + offset)).map fun v =>
          m.oamWrite (0xFE00 + offset) v)
      m
  else m.writeByteNoDma elapsed addr byte

/-- Embedding of `Mmu::step`: advance the timer (raising the Timer
interrupt on overflow), then the PPU (merging the interrupts it
raises), then the divider. -/
def Mmu.step (m : Mmu) (tCycles : Nat) : Mmu :=
  let u := m.timer.update tCycles
  let ifReq :=
    if u.1 then m.interruptsRequested.insertKind .timer
    else m.interruptsRequested
  let m := { m with timer := u.2, interruptsRequested := ifReq }
  let s := m.ppu.step tCycles
  let m := { m with ppu := s.2, interruptsRequested := (m.interruptsRequested.union s.1) }
  { m with divider := (m.divider.update tCycles).2 }

/-! Section cpu/register_file.rs : the register file. -/

/-- Embedding of `struct Registers`. -/
structure Registers where
  a : Nat
  f : Nat
  b : Nat
  c : Nat
  d : Nat
  e : Nat
  h : Nat
  l : Nat
  sp : Nat
  pc : Nat
deriving DecidableEq, Repr

/-- Embedding of `enum R16`. -/
inductive R16 where
  | AF
  | BC
  | DE
  | HL
  | SP
deriving DecidableEq, Repr

/-- Embedding of `enum Flag`. -/
inductive Flag where
  | Z
  | N
  | H
  | C
deriving DecidableEq, Repr

/-- Embedding of `Registers::create`. -/
def Registers.create : Registers :=
  { a := 0, f := 0, b := 0, c := 0, d := 0, e := 0, h := 0, l := 0,
    sp := 0xFFFE, pc := 0x000 }

/-- Embedding of `Registers::r16`: `u16::from_be_bytes([hi, lo])`. -/
def Registers.r16 (regs : Registers) : R16 → Nat
  | .AF => regs.a * 256 + regs.f
  | .BC => regs.b * 256 + regs.c
  | .DE => regs.d * 256 + regs.e
  | .HL => regs.h * 256 + regs.l
  | .SP => regs.sp

/-- Embedding of `Registers::set_r16`: split the word into its
big-endian bytes and store them.  The source performs no masking of the
low nibble of F on AF writes. -/
def Registers.setR16 (regs : Registers) (r : R16) (word : Nat) : Registers :=
  let hi := word % 65536 / 256
  let lo := word % 256
  match r with
  | .AF => { regs with a := hi, f := lo }
  | .BC => { regs with b := hi, c := lo }
  | .DE => { regs with d := hi, e := lo }
  | .HL => { regs with h := hi, l := lo }
  | .SP => { regs with sp := word % 65536 }

/-- Embedding of `Registers::flag`: `(self.f & 1 << shift) > 0` where
the shift is 7, 6, 5, 4 for Z, N, H, C. -/
def Registers.flag (regs : Registers) (fl : Flag) : Bool :=
  let shift : Nat := match fl with
    | .Z => 7
    | .N => 6
    | .H => 5
    | .C => 4
  regs.f &&& (1 <<< shift) > 0

/-- Embedding of `Registers::set_flag`. -/
def Registers.setFlag (regs : Registers) (fl : Flag) (bit : Bool) : Registers :=
  let shift : Nat := match fl with
    | .Z => 7
    | .N => 6
    | .H => 5
    | .C => 4
  let mask := 1 <<< shift
  if bit then { regs with f := regs.f ||| mask }
  else { regs with f := regs.f &&& (255 ^^^ mask) }

/-! Section cpu.rs : interrupt dispatch. -/

/-- Embedding of `enum ImeState`. -/
inductive ImeState where
  | enabled
  | disabled
  | pendingEnable
deriving DecidableEq, Repr

/-- Embedding of `struct Cpu` (the debug log file is not part of the
embedding). -/
structure Cpu where
  regs : Registers
  mmu : Mmu
  ime : ImeState
  isHalted : Bool

/-- Embedding of `Cpu::push_u16` (opcode.rs): decrement SP (wrapping),
write the high byte, decrement SP again, write the low byte.  `elapsed`
is the wall-clock parameter threaded through memory writes. -/
def Cpu.pushU16 (cpu : Cpu) (elapsed word : Nat) : Except String Cpu := do
  let lo := word % 256
  let hi := word % 65536 / 256
  let sp1 := (cpu.regs.sp + 65535) % 65536
  let m1 ← cpu.mmu.writeByte elapsed sp1 hi
  let sp2 := (sp1 + 65535) % 65536
  let m2 ← m1.writeByte elapsed sp2 lo
  pure { cpu with regs := { cpu.regs with sp := sp2 }, mmu := m2 }

/-- Embedding of `Cpu::pop_u16` (opcode.rs): read the low byte at SP,
then the high byte, incrementing SP (wrapping) after each read. -/
def Cpu.popU16 (cpu : Cpu) : Except String (Nat × Cpu) := do
  let lo ← cpu.mmu.readByte cpu.regs.sp
  let sp1 := (cpu.regs.sp + 1) % 65536
  let hi ← cpu.mmu.readByte sp1
  let sp2 := (sp1 + 1) % 65536
  pure (hi * 256 + lo, { cpu with regs := { cpu.regs with sp := sp2 } })

/-- Embedding of `Cpu::pop_r16` (opcode.rs): pop a word, store it in
the register pair, and, for AF only, clear the low nibble of F
afterwards (`self.regs.f &= 0xF0`).  Returns the cycle count 12. -/
def Cpu.popR16 (cpu : Cpu) (reg : R16) : Except String (Nat × Cpu) := do
  let w ← cpu.popU16
  let cpu := { w.2 with regs := w.2.regs.setR16 reg w.1 }
  let cpu :=
    if reg = R16.AF then
      { cpu with regs := { cpu.regs with f := cpu.regs.f &&& 0xF0 } }
    else cpu
  pure (12, cpu)

/-- The interrupt priority order iterated by `Cpu::step`:
`[Vblank, LcdStat, Serial, Timer, Joypad]` (sic — the source places
Serial before Timer). -/
def interruptIterationOrder : List InterruptKind :=
  [.vblank, .lcdStat, .serial, .timer, .joypad]

/-- The interrupt handler address assigned to PC by `Cpu::step`. -/
def interruptVector : InterruptKind → Nat
  | .joypad => 0x60
  | .serial => 0x58
  | .timer => 0x50
  | .lcdStat => 0x48
  | .vblank => 0x40

/-- The first interrupt kind in the given iteration order with both its
IF and IE bits set (the search performed by the `for` loop of
`Cpu::step`). -/
def findPendingInterrupt (m : Mmu) : List InterruptKind → Option InterruptKind
  | [] => Option.none
  | k :: rest =>
      if m.interruptsRequested.contains k && m.interruptsEnabled.contains k then
        some k
      else findPendingInterrupt m rest

/-- Embedding of the interrupt-dispatch phase of `Cpu::step` (cpu.rs,
everything before the halted check and opcode fetch): when IME is
enabled, service the first pending interrupt in
`interruptIterationOrder` (disable IME, clear the halt flag, clear that
IF bit, push PC, jump to the vector, charge 20 T-cycles to the MMU);
when IME is not enabled, a pending interrupt only wakes a halted CPU;
finally promote `PendingEnable` to `Enabled`.  Returns the
`handled_interrupt` flag together with the new state. -/
def Cpu.stepInterruptPhase (cpu : Cpu) (elapsed : Nat) : Except String (Bool × Cpu) := do
  let afterDispatch : Bool × Cpu ←
    if cpu.ime = ImeState.enabled then
      match findPendingInterrupt cpu.mmu interruptIterationOrder with
      | some kind => do
          let cpu := { cpu with
            ime := ImeState.disabled
            isHalted := false
            mmu := { cpu.mmu with interruptsRequested :=
              (cpu.mmu.interruptsRequested.removeKind kind) } }
          let cpu ← cpu.pushU16 elapsed cpu.regs.pc
          let cpu := { cpu with regs := { cpu.regs with pc := interruptVector kind } }
          let cpu := { cpu with mmu := cpu.mmu.step 20 }
          pure (true, cpu)
      | Option.none => pure (false, cpu)
    else
      let pendingInterrupts :=
        cpu.mmu.interruptsRequested.inter cpu.mmu.interruptsEnabled
      if !pendingInterrupts.isEmpty && cpu.isHalted then
        pure (false, { cpu with isHalted := false })
      else pure (false, cpu)
  let cpu := afterDispatch.2
  let cpu :=
    if cpu.ime = ImeState.pendingEnable then { cpu with ime := ImeState.enabled }
    else cpu
  pure (afterDispatch.1, cpu)

/-! Section invariants and concrete states used by the theorems below. -/

/-- The PPU line/mode invariant stated by the specification:
`line ∈ [0,143]` exactly in the three drawing modes and
`line ∈ [144,153]` exactly in vertical blank. -/
def PpuLineModeInv (p : Ppu) : Prop :=
  (p.line ≤ 143 ↔
    (p.mode = Mode.scanlineOAM ∨ p.mode = Mode.scanlineVRAM ∨
     p.mode = Mode.horizontalBlank)) ∧
  ((144 ≤ p.line ∧ p.line ≤ 153) ↔ p.mode = Mode.verticalBlank)

/-- PPU states reachable from `Ppu::new` through `Ppu::step` and the
LCD-control MMIO write. -/
inductive PpuReachable : Ppu → Prop where
  | init : PpuReachable Ppu.new
  | step (p : Ppu) (t : Nat) : PpuReachable p → PpuReachable (p.step t).2
  | lcdc (p : Ppu) (b : Nat) : PpuReachable p → PpuReachable (p.writeLcdc b)

/-- The range invariant on the MBC3 real-time-clock registers. -/
def RtcInRange (r : RealTimeClockRegisters) : Prop :=
  r.seconds < 60 ∧ r.minutes < 60 ∧ r.hours < 24

/-- A concrete MMU state: a NoMBC cartridge with zeroed ROM and RAM and
all other components as `Mmu::new` initializes them (used as input for
counterexamples and witnesses). -/
def mmu0 : Mmu :=
  { cartridge := Cart.noMbc { rom := fun _ => 0, extRam := fun _ => 0 }
    workRam := fun _ => 0
    highRam := fun _ => 0
    bootRom := fun _ => 0
    inBootRom := true
    ppu := Ppu.new
    interruptsEnabled := InterruptSet.empty
    interruptsRequested := InterruptSet.empty
    timer := Timer.mk0 .f4KiHz false
    divider := Timer.mk0 .f16KiHz true
    joypadSelect := JoypadSelect.none
    pressedButtons := fun _ => false }

/-- The interrupt-flag set with exactly Timer and Serial requested. -/
def timerAndSerial : InterruptSet :=
  { vblank := false, lcdStat := false, timer := true, serial := true,
    joypad := false }

/-- A concrete CPU state with IME enabled and both the Timer and Serial
interrupts requested and enabled (input of the C1 counterexample). -/
def cpuC1 : Cpu :=
  { regs := { Registers.create with pc := 0x1234 }
    mmu := { mmu0 with interruptsRequested := timerAndSerial,
                       interruptsEnabled := timerAndSerial }
    ime := ImeState.enabled
    isHalted := false }

/-- A concrete CPU state whose stack pops succeed (input of the C5
witness). -/
def cpuC5 : Cpu :=
  { regs := Registers.create, mmu := mmu0, ime := ImeState.disabled,
    isHalted := false }

/-- The CPU state produced by `cpuC5.popR16 R16.AF` (SP wraps from
0xFFFE past 0xFFFF to 0; both popped bytes are zero). -/
def cpuC5Popped : Cpu :=
  { regs := { Registers.create with sp := 0 }, mmu := mmu0,
    ime := ImeState.disabled, isHalted := false }

/-- Tile data for the C4 counterexample: tile 0 of block 0 has color id
1 in every pixel of its top line, tile 1 of block 0 has color id 2 in
every pixel of its top line. -/
def vramC4 : VRamTileData :=
  (Ppu.new.vramTileData.modifyLine 0 0 0 fun _ =>
    { lsbs := 0xFF, msbs := 0x00 }).modifyLine 0 1 0 fun _ =>
    { lsbs := 0x00, msbs := 0xFF }

/-- Object attribute memory for the C4 counterexample: entry 0 is an
object at the top-left of the screen whose tile index 1 is odd. -/
def oamC4 : List ObjectAttributes :=
  (List.replicate 40 ObjectAttributes.zeroed).set 0
    { yPos := 16, xPos := 8, tileIdx := 1, bgOverObjPriority := .zero,
      yFlip := false, xFlip := false, palette := .zero }

/-- The PPU state of the C4 counterexample: 8×16 objects enabled,
background disabled, object palette 0 mapping color id `i` to color
`i`, drawing line 0. -/
def ppuC4 : Ppu :=
  { Ppu.new with
      objEnabled := true
      objSize := ObjSize.dim8x16
      line := 0
      vramTileData := vramC4
      objAttributeMemory := oamC4
      objColorPalettes := fun _ => ColorPalette.fromU8 0b11100100 }

/-- A concrete MBC3 state with the RTC mounted on the seconds register
and RAM/RTC access enabled (input of the C10 witness). -/
def mbc3C10 : Mbc3 :=
  { romBanks := [], romBankIdx := 1, ramBanks := []
    enableRamAndRtc := true
    ramBankOrRtcSelect := RamBankOrRtcSelect.seconds
    clockRegisters :=
      { seconds := 0, minutes := 0, hours := 0, daysLow := 0,
        daysHiBit := false, dayCounterCarry := false }
    latchState := LatchState.latched }

/-- The MBC3 state after writing 200 to the mounted seconds register of
`mbc3C10` (200 % 60 = 20). -/
def mbc3C10After : Mbc3 :=
  { mbc3C10 with clockRegisters := { mbc3C10.clockRegisters with seconds := 20 } }

/-! Helper lemmas about the tile-line encoding. -/

/-- One step of the `from_color_ids` loop applied to the color id read
from bit `7 - idx` of a tile line just re-assembles that bit into the
accumulated pair. -/
theorem encStep_colorIdAtBit (t : TileLine) (acc : Nat × Nat) (idx : Nat) :
    encStep acc (idx, t.colorIdAtBit (7 - idx)) =
      (acc.1 ||| bitAt t.lsbs (7 - idx), acc.2 ||| bitAt t.msbs (7 - idx)) := by
  unfold encStep TileLine.colorIdAtBit bitAt u8set u8bit
  cases hm : Nat.testBit t.msbs (7 - idx) <;>
    cases hl : Nat.testBit t.lsbs (7 - idx) <;>
      simp [hm, hl, Nat.or_zero]

/-- The `from_color_ids` fold over the color ids of a tile line
collects the or of the corresponding bits of each plane. -/
theorem foldl_encStep (t : TileLine) :
    ∀ (n k : Nat) (acc : Nat × Nat),
      List.foldl encStep acc
        (((List.range' k n).map fun idx => t.colorIdAtBit (7 - idx)).enumFrom k) =
      (acc.1 ||| orBits t.lsbs k n, acc.2 ||| orBits t.msbs k n) := by
  intro n
  induction n with
  | zero =>
      intro k acc
      simp [List.range', orBits, List.enumFrom]
  | succ n ih =>
      intro k acc
      have hr : List.range' k (n + 1) = k :: List.range' (k + 1) n := rfl
      rw [hr]
      simp only [List.map, List.enumFrom, List.foldl]
      rw [encStep_colorIdAtBit]
      rw [ih (k + 1) _]
      simp [orBits, Nat.or_assoc]

/-- The bit kept by `bitAt` seen through `testBit`. -/
theorem testBit_bitAt (x b i : Nat) :
    (bitAt x b).testBit i = (x.testBit b && decide (b = i)) := by
  unfold bitAt
  by_cases h : x.testBit b
  · simp [h, Nat.one_shiftLeft, Nat.testBit_two_pow]
  · simp [h]

/-- Collecting the eight low bits of a byte reassembles the byte. -/
theorem orBits_eight (x : Nat) (hx : x < 256) : orBits x 0 8 = x := by
  apply Nat.eq_of_testBit_eq
  intro i
  have h8 : orBits x 0 8 =
      bitAt x 7 ||| (bitAt x 6 ||| (bitAt x 5 ||| (bitAt x 4 |||
        (bitAt x 3 ||| (bitAt x 2 ||| (bitAt x 1 ||| (bitAt x 0 ||| 0))))))) := rfl
  rw [h8]
  simp only [Nat.testBit_or, testBit_bitAt]
  rcases Nat.lt_or_ge i 8 with hi | hi
  · interval_cases i <;> simp
  · have h2 : (256 : Nat) ≤ 2 ^ i := by
      calc (256 : Nat) = 2 ^ 8 := by norm_num
        _ ≤ 2 ^ i := Nat.pow_le_pow_right (by norm_num) hi
    have hxi : x.testBit i = false :=
      Nat.testBit_lt_two_pow (lt_of_lt_of_le hx h2)
    simp [hxi, show (7 : Nat) ≠ i by omega, show (6 : Nat) ≠ i by omega,
      show (5 : Nat) ≠ i by omega, show (4 : Nat) ≠ i by omega,
      show (3 : Nat) ≠ i by omega, show (2 : Nat) ≠ i by omega,
      show (1 : Nat) ≠ i by omega, show (0 : Nat) ≠ i by omega]

/-- C9: decoding any pair of tile-line bytes to 8 color ids with
`TileLine::color_ids` and re-encoding them with
`TileLine::from_color_ids` yields the same pair, for every
`(lsbs, msbs) ∈ [0,255]²`. -/
theorem c9_tile_line_roundtrip :
    ∀ lsbs msbs : Fin 256,
      TileLine.fromColorIds (TileLine.colorIds ⟨lsbs.val, msbs.val⟩) =
        ⟨lsbs.val, msbs.val⟩ := by
  intro l m
  have h1 := orBits_eight l.val l.isLt
  have h2 := orBits_eight m.val m.isLt
  unfold TileLine.fromColorIds TileLine.colorIds List.enum
  rw [List.range_eq_range']
  rw [foldl_encStep ⟨l.val, m.val⟩ 8 0 (0, 0)]
  simp [Nat.zero_or, h1, h2]

/-- C3: on the timer of `src/timer.rs` at 256 KiHz (threshold 16
T-cycles), starting from an empty accumulator, `update(16)` does not
increment the value (the claim requires one increment after 16
T-cycles), and the two subsequent `update(1)` calls each increment it
(the claim requires a single increment for the whole 18 T-cycles): the
accumulator is never reduced when the threshold is crossed. -/
theorem c3_timer_update_divergence :
    ((Timer.update ⟨.f256KiHz, true, 0, 0, 0⟩ 16).2.value = 0) ∧
    ((Timer.update (Timer.update ⟨.f256KiHz, true, 0, 0, 0⟩ 16).2 1).2.value = 1) ∧
    ((Timer.update (Timer.update
        (Timer.update ⟨.f256KiHz, true, 0, 0, 0⟩ 16).2 1).2 1).2.value = 2) := by
  decide

/-- C5 counterexample: `Registers::set_r16(AF, 0x0001)` leaves
`F = 0x01`, so `F & 0x0F = 0` does not hold after every `set_r16` AF
write. -/
theorem c5_set_r16_af_counterexample :
    ¬ ((Registers.create.setR16 R16.AF 1).f &&& 0x0F = 0) := by
  decide

/-- C1: with IME enabled and exactly Timer and Serial both requested
and enabled, `Cpu::step` services Serial, not Timer: it jumps to vector
0x58, clears only the Serial IF bit (the remaining mask is 0b00100 =
Timer), disables IME, pushes PC (0x1234) at 0xFFFD/0xFFFC, and leaves
SP at 0xFFFC. -/
theorem c1_interrupt_priority_divergence :
    ((cpuC1.stepInterruptPhase 0).map fun r =>
        (r.1, r.2.regs.pc, r.2.regs.sp, r.2.ime,
         r.2.mmu.interruptsRequested.asU8,
         r.2.mmu.highRam 0x7D, r.2.mmu.highRam 0x7C)) =
      .ok (true, 0x58, 0xFFFC, ImeState.disabled, 0b00100, 0x12, 0x34) := by
  rfl

/-- C2: after the LCD is enabled and the PPU steps through one OAM scan
(80 T-cycles) and one pixel transfer (172 T-cycles), scanline 0 (all
white, background disabled) has been written to the working
`lcd_display` buffer while `last_full_frame` still holds its initial
black frame; `Emulator::resolve_display` returns the working buffer
(white), not `last_full_frame` (black), although the two buffers
differ. -/
theorem c2_resolve_display_divergence :
    (let p := (((Ppu.new.writeLcdc 0x80).step 80).2.step 172).2
     resolveDisplay p 0 0 = Color.white ∧
     (p.lastFullFrame 0).pixelAt 0 = Color.black ∧
     (p.lcdDisplay 0).pixelAt 0 ≠ (p.lastFullFrame 0).pixelAt 0) := by
  decide

/-- C4: for an 8×16 object with the odd tile index 1 on rows 0-7, the
compositor reads tile 1 (whose top line has color id 2, dark gray
under the identity palette) instead of tile `1 AND 0xFE = 0` (whose
top line has color id 1, light gray): the low bit of `tile_idx` is not
masked for the top half. -/
theorem c4_objtile_low_bit_divergence :
    (ppuC4.drawScanLine).pixelAt 0 = Color.darkGray ∧
    (ColorPalette.fromU8 0b11100100).lookup
        (((vramC4.getTileFrom0x8000 (1 &&& 0xFE)).lines 0).colorIds.getD 0 ColorId.id0)
      = Color.lightGray := by
  decide

/-- C7 counterexample: writing 0x10 to 0xFF00 (bit 5 low, bit 4 high)
selects the Buttons group, not the DPad group stated by the claim. -/
theorem c7_joypad_select_counterexample :
    ((mmu0.writeByte 0 0xFF00 0x10).map fun m => m.joypadSelect) =
        .ok JoypadSelect.buttons ∧
      JoypadSelect.buttons ≠ JoypadSelect.dPad :=
  ⟨rfl, by decide⟩

/-- C8 counterexample: a read of the OAM DMA register 0xFF46 panics
(`Except.error` in this embedding) instead of logging and returning
normally. -/
theorem c8_rom_misbehavior_counterexample :
    mmu0.readByte 0xFF46 = .error "Attempted to read from DMA transfer register" := by
  rfl

/-! Helper lemmas for the F-register mask and the joypad nibbles. -/

/-- Masking with 0xF0 clears the low nibble. -/
theorem nat_and240_and15 (y : Nat) : (y &&& 240) &&& 15 = 0 := by
  have h : (240 &&& 15 : Nat) = 0 := by decide
  rw [Nat.and_assoc, h, Nat.and_zero]

/-- `Cpu::pop_r16` on AF expressed as the popped word stored through
`set_r16` followed by the `f &= 0xF0` mask. -/
theorem popR16_AF_eq (cpu : Cpu) :
    cpu.popR16 R16.AF = cpu.popU16.map fun w =>
      (12, { w.2 with regs :=
        { (w.2.regs.setR16 R16.AF w.1) with
            f := (w.2.regs.setR16 R16.AF w.1).f &&& 0xF0 } }) := by
  unfold Cpu.popR16
  cases cpu.popU16 <;> rfl

/-- C5 (amended): `Registers::set_r16(AF, w)` stores the low byte of
`w` into F without masking (refuted above at `w = 1`); the low-nibble
invariant is enforced one level up, in `Cpu::pop_r16`, which masks F
with 0xF0 after an AF pop, so after any `pop_r16(AF)` that returns
normally, `F & 0x0F = 0`. -/
theorem c5_f_low_nibble_amended (cpu cpu' : Cpu) (n : Nat)
    (h : cpu.popR16 R16.AF = .ok (n, cpu')) :
    cpu'.regs.f &&& 0x0F = 0 := by
  rw [popR16_AF_eq] at h
  cases hp : cpu.popU16 with
  | error e =>
      rw [hp] at h
      exact Except.noConfusion h
  | ok w =>
      rw [hp] at h
      simp only [Except.map] at h
      injection h with h2
      injection h2 with hn hc
      subst hc
      exact nat_and240_and15 _

/-- Witness for C5 (amended): popping AF on the concrete state `cpuC5`
succeeds and leaves the low nibble of F zero. -/
theorem c5_f_low_nibble_amended_witness :
    cpuC5Popped.regs.f &&& 0x0F = 0 :=
  c5_f_low_nibble_amended cpuC5 cpuC5Popped 12 (by rfl)

/-- C8 (amended): writes to LY (0xFF44) and writes to the ROM range of
a cartridge without an MBC are logged and leave the state unchanged,
returning normally; but a read of the OAM DMA register (0xFF46) aborts
with a panic instead of continuing. -/
theorem c8_rom_misbehavior_amended :
    (∀ (m : Mmu) (elapsed b : Nat), m.writeByte elapsed 0xFF44 b = .ok m) ∧
    (∀ (c : NoMbc) (addr byte : Nat), addr ≤ 0x7FFF → c.write addr byte = .ok c) ∧
    (∀ m : Mmu, m.readByte 0xFF46 =
      .error "Attempted to read from DMA transfer register") := by
  refine ⟨fun m elapsed b => ?_, fun c addr byte h => ?_, fun m => ?_⟩
  · rfl
  · unfold NoMbc.write
    rw [if_pos h]
  · rfl

/-- Witness for C8 (amended) at concrete inputs. -/
theorem c8_rom_misbehavior_amended_witness :
    mmu0.writeByte 0 0xFF44 0xAB = .ok mmu0 ∧
    NoMbc.write { rom := fun _ => 0, extRam := fun _ => 0 } 0x0100 0x12 =
      .ok { rom := fun _ => 0, extRam := fun _ => 0 } ∧
    mmu0.readByte 0xFF46 = .error "Attempted to read from DMA transfer register" :=
  ⟨c8_rom_misbehavior_amended.1 mmu0 0 0xAB,
   c8_rom_misbehavior_amended.2.1 _ 0x0100 0x12 (by norm_num),
   c8_rom_misbehavior_amended.2.2 mmu0⟩

/-- The low nibble of a packed byte. -/
theorem mkByte_and_15 :
    ∀ b7 b6 b5 b4 b3 b2 b1 b0 : Bool,
      mkByte b7 b6 b5 b4 b3 b2 b1 b0 &&& 0x0F =
        mkByte false false false false b3 b2 b1 b0 := by
  decide

/-- Bits 5 and 4 of a packed byte. -/
theorem mkByte_and_48 :
    ∀ b7 b6 b5 b4 b3 b2 b1 b0 : Bool,
      mkByte b7 b6 b5 b4 b3 b2 b1 b0 &&& 0x30 =
        mkByte false false b5 b4 false false false false := by
  decide

/-- C7 (amended): writing byte `b` to 0xFF00 decodes the select mode
from bits 5 and 4: both high selects Neither, only bit 5 low selects
Buttons, only bit 4 low selects DPad, both low selects Both; a read of
0xFF00 returns the select bits (bits 5 and 4) together with the
inverted (active-low) state of the selected button group in the low
nibble, and in Neither mode the low nibble reads 0xF. -/
theorem c7_joypad_amended :
    (JoypadSelect.fromBeBits true true = JoypadSelect.none ∧
     JoypadSelect.fromBeBits false true = JoypadSelect.buttons ∧
     JoypadSelect.fromBeBits true false = JoypadSelect.dPad ∧
     JoypadSelect.fromBeBits false false = JoypadSelect.all) ∧
    (∀ (m : Mmu) (elapsed b : Nat),
      m.writeByte elapsed 0xFF00 b =
        .ok { m with joypadSelect :=
          JoypadSelect.fromBeBits (u8bit b 5) (u8bit b 4) }) ∧
    (∀ m : Mmu, m.readByte 0xFF00 = .ok m.readJoypad) ∧
    (∀ m : Mmu, m.joypadSelect = JoypadSelect.none →
      m.readJoypad &&& 0x0F = 0xF) ∧
    (∀ m : Mmu, m.joypadSelect = JoypadSelect.buttons →
      m.readJoypad &&& 0x0F =
        mkByte false false false false (!m.pressedButtons .start)
          (!m.pressedButtons .selectBtn) (!m.pressedButtons .b)
          (!m.pressedButtons .a) ∧
      m.readJoypad &&& 0x30 = 0x10) ∧
    (∀ m : Mmu, m.joypadSelect = JoypadSelect.dPad →
      m.readJoypad &&& 0x0F =
        mkByte false false false false (!m.pressedButtons .down)
          (!m.pressedButtons .up) (!m.pressedButtons .left)
          (!m.pressedButtons .right) ∧
      m.readJoypad &&& 0x30 = 0x20) := by
  refine ⟨by decide, fun m elapsed b => rfl, fun m => rfl,
    fun m h => ?_, fun m h => ?_, fun m h => ?_⟩
  · have hv : m.readJoypad = mkByte true true true true true true true true := by
      simp [Mmu.readJoypad, h]
    rw [hv, mkByte_and_15 true true true true true true true true]
    decide
  · have hv : m.readJoypad =
        mkByte true true false true (!m.pressedButtons .start)
          (!m.pressedButtons .selectBtn) (!m.pressedButtons .b)
          (!m.pressedButtons .a) := by
      simp [Mmu.readJoypad, h, JoypadSelect.toBeBits]
    refine ⟨?_, ?_⟩
    · rw [hv, mkByte_and_15]
    · rw [hv, mkByte_and_48]
      decide
  · have hv : m.readJoypad =
        mkByte true true true false (!m.pressedButtons .down)
          (!m.pressedButtons .up) (!m.pressedButtons .left)
          (!m.pressedButtons .right) := by
      simp [Mmu.readJoypad, h, JoypadSelect.toBeBits]
    refine ⟨?_, ?_⟩
    · rw [hv, mkByte_and_15]
    · rw [hv, mkByte_and_48]
      decide

/-- Witness for C7 (amended) at concrete inputs (the initial MMU state
selects Neither; a state selecting Buttons reads its inverted button
bits). -/
theorem c7_joypad_amended_witness :
    mmu0.readByte 0xFF00 = .ok mmu0.readJoypad ∧
    mmu0.readJoypad &&& 0x0F = 0xF ∧
    ({ mmu0 with joypadSelect := JoypadSelect.buttons }.readJoypad &&& 0x0F =
      mkByte false false false false true true true true) := by
  obtain ⟨hdec, hw, hr, hnone, hbtn, hdpad⟩ := c7_joypad_amended
  exact ⟨hr mmu0, hnone mmu0 rfl,
    (hbtn { mmu0 with joypadSelect := JoypadSelect.buttons } rfl).1⟩

/-! Helper lemma for the MBC3 clock range invariant. -/

/-- `RealTimeClockRegisters::update` keeps the three clock fields in
range. -/
theorem rtc_update_in_range (r : RealTimeClockRegisters) (elapsed : Nat)
    (h : RtcInRange r) : RtcInRange (r.update elapsed) := by
  unfold RealTimeClockRegisters.update
  split_ifs
  all_goals
    first
      | exact h
      | exact ⟨Nat.mod_lt _ (by norm_num), Nat.mod_lt _ (by norm_num),
          Nat.mod_lt _ (by norm_num)⟩

/-- C10: every successful `Mbc3::write` — in particular a CPU write to
a mounted RTC register (stored modulo 60, 60 or 24) and the clock
update triggered by the latch sequence — preserves the range invariant
seconds < 60, minutes < 60, hours < 24. -/
theorem c10_rtc_range_invariant (c c' : Mbc3) (elapsed addr byte : Nat)
    (hr : RtcInRange c.clockRegisters)
    (hw : c.write elapsed addr byte = .ok c') :
    RtcInRange c'.clockRegisters := by
  obtain ⟨hs, hm', hh⟩ := hr
  unfold Mbc3.write at hw
  split_ifs at hw
  all_goals try split at hw
  all_goals try split at hw
  all_goals
    first
      | exact Except.noConfusion hw
      | (injection hw with h
         subst h
         first
           | exact ⟨hs, hm', hh⟩
           | exact rtc_update_in_range _ _ ⟨hs, hm', hh⟩
           | exact ⟨Nat.mod_lt _ (by norm_num), hm', hh⟩
           | exact ⟨hs, Nat.mod_lt _ (by norm_num), hh⟩
           | exact ⟨hs, hm', Nat.mod_lt _ (by norm_num)⟩)

/-- Witness for C10: writing 200 into the mounted seconds register of
a concrete MBC3 state stores 200 % 60 = 20, in range. -/
theorem c10_rtc_range_invariant_witness :
    RtcInRange mbc3C10After.clockRegisters :=
  c10_rtc_range_invariant mbc3C10 mbc3C10After 0 0xA000 200
    (by exact ⟨by norm_num [mbc3C10], by norm_num [mbc3C10], by norm_num [mbc3C10]⟩)
    (by rfl)

/-! Helper lemmas describing `Ppu::step` mode by mode. -/

/-- `Ppu::step` is a no-op when the LCD is disabled. -/
theorem ppu_step_disabled (p : Ppu) (t : Nat) (h : p.lcdEnabled = false) :
    p.step t = (InterruptSet.empty, p) := by
  unfold Ppu.step
  simp [h]

/-- The mode, line and accumulator of `Ppu::step` in OAM scan. -/
theorem ppu_step_oam_fields (p : Ppu) (t : Nat) (hl : p.lcdEnabled = true)
    (hm : p.mode = Mode.scanlineOAM) :
    (p.step t).2.mode =
      (if 80 ≤ p.cyclesInMode + t then Mode.scanlineVRAM else Mode.scanlineOAM) ∧
    (p.step t).2.line = p.line ∧
    (p.step t).2.cyclesInMode =
      (if 80 ≤ p.cyclesInMode + t then p.cyclesInMode + t - 80
       else p.cyclesInMode + t) := by
  unfold Ppu.step
  simp only [hl, hm, Bool.not_true]
  split_ifs <;> simp_all

/-- The mode, line and accumulator of `Ppu::step` in pixel transfer. -/
theorem ppu_step_vram_fields (p : Ppu) (t : Nat) (hl : p.lcdEnabled = true)
    (hm : p.mode = Mode.scanlineVRAM) :
    (p.step t).2.mode =
      (if 172 ≤ p.cyclesInMode + t then Mode.horizontalBlank
       else Mode.scanlineVRAM) ∧
    (p.step t).2.line = p.line ∧
    (p.step t).2.cyclesInMode =
      (if 172 ≤ p.cyclesInMode + t then p.cyclesInMode + t - 172
       else p.cyclesInMode + t) := by
  unfold Ppu.step
  simp only [hl, hm, Bool.not_true]
  split_ifs <;> simp_all

/-- The line, mode and accumulator of `Ppu::step` in horizontal
blank. -/
theorem ppu_step_hblank_fields (p : Ppu) (t : Nat) (hl : p.lcdEnabled = true)
    (hm : p.mode = Mode.horizontalBlank) :
    (p.step t).2.line =
      (if 204 ≤ p.cyclesInMode + t then p.line + 1 else p.line) ∧
    (p.step t).2.mode =
      (if 204 ≤ p.cyclesInMode + t then
        (if p.line + 1 = 144 then Mode.verticalBlank else Mode.scanlineOAM)
       else Mode.horizontalBlank) ∧
    (p.step t).2.cyclesInMode =
      (if 204 ≤ p.cyclesInMode + t then p.cyclesInMode + t - 204
       else p.cyclesInMode + t) := by
  unfold Ppu.step
  simp only [hl, hm, Bool.not_true]
  split_ifs <;> simp_all

/-- The line, mode and accumulator of `Ppu::step` in vertical blank. -/
theorem ppu_step_vblank_fields (p : Ppu) (t : Nat) (hl : p.lcdEnabled = true)
    (hm : p.mode = Mode.verticalBlank) :
    (p.step t).2.line =
      (if 456 ≤ p.cyclesInMode + t then
        (if p.line + 1 = 154 then 0 else p.line + 1)
       else p.line) ∧
    (p.step t).2.mode =
      (if 456 ≤ p.cyclesInMode + t then
        (if p.line + 1 = 154 then Mode.scanlineOAM else Mode.verticalBlank)
       else Mode.verticalBlank) ∧
    (p.step t).2.cyclesInMode =
      (if 456 ≤ p.cyclesInMode + t then p.cyclesInMode + t - 456
       else p.cyclesInMode + t) := by
  unfold Ppu.step
  simp only [hl, hm, Bool.not_true]
  split_ifs <;> simp_all

/-- The initial PPU state satisfies the line/mode invariant. -/
theorem ppu_new_inv : PpuLineModeInv Ppu.new := by
  refine ⟨?_, ?_⟩ <;> simp [Ppu.new]

/-- `Ppu::step` preserves the line/mode invariant. -/
theorem ppu_step_inv (p : Ppu) (t : Nat) (h : PpuLineModeInv p) :
    PpuLineModeInv (p.step t).2 := by
  obtain ⟨h1, h2⟩ := h
  cases hl : p.lcdEnabled with
  | false =>
      rw [ppu_step_disabled p t hl]
      exact ⟨h1, h2⟩
  | true =>
      cases hm : p.mode with
      | scanlineOAM =>
          obtain ⟨hmo, hli, hcy⟩ := ppu_step_oam_fields p t hl hm
          have hline : p.line ≤ 143 := h1.mpr (Or.inl hm)
          refine ⟨?_, ?_⟩ <;> rw [hli, hmo] <;> split_ifs <;> simp <;> omega
      | scanlineVRAM =>
          obtain ⟨hmo, hli, hcy⟩ := ppu_step_vram_fields p t hl hm
          have hline : p.line ≤ 143 := h1.mpr (Or.inr (Or.inl hm))
          refine ⟨?_, ?_⟩ <;> rw [hli, hmo] <;> split_ifs <;> simp <;> omega
      | horizontalBlank =>
          obtain ⟨hli, hmo, hcy⟩ := ppu_step_hblank_fields p t hl hm
          have hline : p.line ≤ 143 := h1.mpr (Or.inr (Or.inr hm))
          refine ⟨?_, ?_⟩ <;> rw [hli, hmo] <;> split_ifs <;> simp <;> omega
      | verticalBlank =>
          obtain ⟨hli, hmo, hcy⟩ := ppu_step_vblank_fields p t hl hm
          have hrange : 144 ≤ p.line ∧ p.line ≤ 153 := h2.mpr hm
          refine ⟨?_, ?_⟩ <;> rw [hli, hmo] <;> split_ifs <;> simp <;> omega

/-- The LCD-control write preserves the line/mode invariant. -/
theorem ppu_lcdc_inv (p : Ppu) (b : Nat) (h : PpuLineModeInv p) :
    PpuLineModeInv (p.writeLcdc b) := by
  obtain ⟨h1, h2⟩ := h
  unfold Ppu.writeLcdc
  cases he : u8bit b 7 with
  | false =>
      simp only [he, Bool.not_false, if_true]
      refine ⟨?_, ?_⟩ <;> simp
  | true =>
      simp only [he, Bool.not_true, Bool.false_eq_true, if_false]
      exact ⟨h1, h2⟩

/-- C6: every PPU state reachable through `Ppu::step` and the LCDC
MMIO write satisfies `line ∈ [0,143]` exactly in the three drawing
modes and `line ∈ [144,153]` exactly in vertical blank; `step` is a
no-op when the LCD is disabled; turning the LCD off resets line,
mode and accumulator; and each mode advances at its threshold (80,
172, 204, 456 T-cycles), subtracting the threshold from the
accumulator rather than zeroing it. -/
theorem c6_ppu_line_mode_invariant :
    (∀ p : Ppu, PpuReachable p → PpuLineModeInv p) ∧
    (∀ (p : Ppu) (t : Nat), p.lcdEnabled = false →
      p.step t = (InterruptSet.empty, p)) ∧
    (∀ (p : Ppu) (b : Nat), u8bit b 7 = false →
      (p.writeLcdc b).line = 0 ∧ (p.writeLcdc b).mode = Mode.horizontalBlank ∧
        (p.writeLcdc b).cyclesInMode = 0) ∧
    (∀ (p : Ppu) (t : Nat), p.lcdEnabled = true → p.mode = Mode.scanlineOAM →
      80 ≤ p.cyclesInMode + t →
      (p.step t).2.mode = Mode.scanlineVRAM ∧
        (p.step t).2.cyclesInMode = p.cyclesInMode + t - 80) ∧
    (∀ (p : Ppu) (t : Nat), p.lcdEnabled = true → p.mode = Mode.scanlineVRAM →
      172 ≤ p.cyclesInMode + t →
      (p.step t).2.mode = Mode.horizontalBlank ∧
        (p.step t).2.cyclesInMode = p.cyclesInMode + t - 172) ∧
    (∀ (p : Ppu) (t : Nat), p.lcdEnabled = true → p.mode = Mode.horizontalBlank →
      204 ≤ p.cyclesInMode + t →
      (p.step t).2.line = p.line + 1 ∧
        (p.step t).2.cyclesInMode = p.cyclesInMode + t - 204) ∧
    (∀ (p : Ppu) (t : Nat), p.lcdEnabled = true → p.mode = Mode.verticalBlank →
      456 ≤ p.cyclesInMode + t →
      (p.step t).2.cyclesInMode = p.cyclesInMode + t - 456) := by
  refine ⟨?_, ?_, ?_, ?_, ?_, ?_, ?_⟩
  · intro p hp
    induction hp with
    | init => exact ppu_new_inv
    | step p t hp ih => exact ppu_step_inv p t ih
    | lcdc p b hp ih => exact ppu_lcdc_inv p b ih
  · exact fun p t h => ppu_step_disabled p t h
  · intro p b h
    unfold Ppu.writeLcdc
    simp [h]
  · intro p t hl hm hc
    obtain ⟨hmo, hli, hcy⟩ := ppu_step_oam_fields p t hl hm
    rw [hmo, hcy]
    simp [hc]
  · intro p t hl hm hc
    obtain ⟨hmo, hli, hcy⟩ := ppu_step_vram_fields p t hl hm
    rw [hmo, hcy]
    simp [hc]
  · intro p t hl hm hc
    obtain ⟨hli, hmo, hcy⟩ := ppu_step_hblank_fields p t hl hm
    rw [hli, hcy]
    simp [hc]
  · intro p t hl hm hc
    obtain ⟨hli, hmo, hcy⟩ := ppu_step_vblank_fields p t hl hm
    rw [hcy]
    simp [hc]

/-- Witness for C6 at concrete states: the initial state satisfies the
invariant; a disabled step is a no-op; turning the LCD off resets; and
each mode crosses its threshold with the residue kept. -/
theorem c6_ppu_line_mode_invariant_witness :
    PpuLineModeInv Ppu.new ∧
    Ppu.new.step 4 = (InterruptSet.empty, Ppu.new) ∧
    ((Ppu.new.writeLcdc 0).line = 0 ∧
      (Ppu.new.writeLcdc 0).mode = Mode.horizontalBlank ∧
      (Ppu.new.writeLcdc 0).cyclesInMode = 0) ∧
    (({ Ppu.new with lcdEnabled := true }.step 81).2.mode = Mode.scanlineVRAM ∧
      ({ Ppu.new with lcdEnabled := true }.step 81).2.cyclesInMode = 1) ∧
    (({ Ppu.new with lcdEnabled := true, mode := Mode.scanlineVRAM }.step 173).2.mode = Mode.horizontalBlank ∧
      ({ Ppu.new with lcdEnabled := true, mode := Mode.scanlineVRAM }.step 173).2.cyclesInMode = 1) ∧
    (({ Ppu.new with lcdEnabled := true, mode := Mode.horizontalBlank }.step 205).2.line = 1 ∧
      ({ Ppu.new with lcdEnabled := true, mode := Mode.horizontalBlank }.step 205).2.cyclesInMode = 1) ∧
    ({ Ppu.new with lcdEnabled := true, mode := Mode.verticalBlank, line := 144 }.step 457).2.cyclesInMode = 1 := by
  obtain ⟨hinv, hnoop, hoffw, hoam, hvram, hhb, hvb⟩ := c6_ppu_line_mode_invariant
  exact ⟨hinv Ppu.new PpuReachable.init, hnoop Ppu.new 4 rfl,
    hoffw Ppu.new 0 rfl,
    hoam _ 81 rfl rfl (by decide),
    hvram _ 173 rfl rfl (by decide),
    hhb _ 205 rfl rfl (by decide),
    hvb _ 457 rfl rfl (by decide)⟩

end Gbrs
